import Mathlib

/-!
Verification of the gfxreconstruct capture layer sources against their
natural-language specification.

Part 1 embeds `src/framework/util/settings_loader.cpp` (RemoveQuotes,
LoadLayerSettingsFile and its per-line parsing).

Part 2 embeds the generated DX12 wrapper entry points from
`src/framework/generated/generated_dx12_wrappers.cpp` together with the
capture-manager operations they call.  The entry-point bodies are translated
from the source; the capture-manager helpers (IncrementCallScope, WrapObject,
GetWrappedObject, UnwrapObjects, Encode_*) live outside `src/` and are
modelled from the spec where indicated.
-/

set_option autoImplicit false

namespace GfxRecon

/-! ## Part 1: settings loader (`settings_loader.cpp`) -/

namespace Settings

/-- The comment delimiter `kCommentDelimiter = '#'`. -/
def kCommentDelimiter : Char := '#'

/-- Errno value `EINVAL` as returned by `LoadLayerSettingsFile` for a null settings map. -/
def EINVAL : Nat := 22

/-- A quote character as tested by `RemoveQuotes` (`'"'` or `'\''`).
The single-quote character is written via its code point 39. -/
def isQuoteChar (c : Char) : Bool := c = '"' || c = Char.ofNat 39

/-- Function `RemoveQuotes` from settings_loader.cpp lines 55-77, on the string's
character list.  `source.front()`/`source.back()` on an empty string are
undefined in the original; the `[]` case is never reached from
`LoadLayerSettingsFile` (the parsed value is non-empty there). -/
def RemoveQuotes : List Char → List Char
  | [] => []
  | c :: rest =>
      let src := c :: rest
      let lastc := src.getLast (List.cons_ne_nil c rest)
      let start_index : Nat := if isQuoteChar c then 1 else 0
      let quote_count : Nat := start_index + (if isQuoteChar lastc then 1 else 0)
      if 0 < quote_count then (src.drop start_index).take (src.length - quote_count)
      else src

/-- Statement-side rendering of "at most one leading quote removed". -/
def dropLeadingQuote : List Char → List Char
  | [] => []
  | c :: rest => if isQuoteChar c then rest else c :: rest

/-- Statement-side rendering of "at most one trailing quote removed". -/
def dropTrailingQuote (s : List Char) : List Char :=
  match s.getLast? with
  | some c => if isQuoteChar c then s.dropLast else s
  | none => s

/-- Whitespace as matched by a blank in a `sscanf` format string. -/
def isFmtSpace (c : Char) : Bool :=
  c = ' ' || c = '\t' || c = '\n' || c = '\r' || c = Char.ofNat 11 || c = Char.ofNat 12

/-- Characters accepted by the key conversion `%511[^\r\n\t =]`. -/
def isKeyChar (c : Char) : Bool :=
  !(c = '\r' || c = '\n' || c = '\t' || c = ' ' || c = '=')

/-- Characters accepted by the value conversion `%511[^\r\n \t]`. -/
def isValueChar (c : Char) : Bool :=
  !(c = '\r' || c = '\n' || c = ' ' || c = '\t')

/-- A scan set conversion of the form percent-N-bracket: takes at most `n` leading characters
satisfying `p`, returning the token and the unconsumed rest. -/
def scanSet (p : Char → Bool) : Nat → List Char → List Char × List Char
  | _, [] => ([], [])
  | 0, rest => ([], rest)
  | n + 1, c :: rest =>
      if p c then
        let (tok, r) := scanSet p n rest
        (c :: tok, r)
      else ([], c :: rest)

/-- The `sscanf(line, " %511[^\r\n\t =] = %511[^\r\n \t]", key, value)` match
from settings_loader.cpp line 242: returns the two converted tokens when both
conversions succeed (`sscanf` result `== 2`), `none` otherwise. -/
def sscanfKeyValue (line : List Char) : Option (List Char × List Char) :=
  let r1 := line.dropWhile isFmtSpace
  let (key, r2) := scanSet isKeyChar 511 r1
  if key = [] then none
  else
    let r3 := r2.dropWhile isFmtSpace
    match r3 with
    | '=' :: r4 =>
        let r5 := r4.dropWhile isFmtSpace
        let (value, _) := scanSet isValueChar 511 r5
        if value = [] then none else some (key, value)
    | _ => none

/-- Comment stripping, lines 227-231: `find_first_of('#')` and, when found
(`!= npos`, here `≠ length`), `erase` from that position to the end. -/
def stripComment (line : List Char) : List Char :=
  let comment_start := line.findIdx (fun c => c == kCommentDelimiter)
  if comment_start ≠ line.length then line.take comment_start else line

/-- The settings map, modelled as an association list;
`(*settings)[key] = v` inserts or overwrites. -/
def mapInsert (m : List (String × String)) (k v : String) : List (String × String) :=
  (k, v) :: m.filter (fun p => p.1 ≠ k)

/-- Comparison `strncmp(key, filter, filter.length()) == 0`
(`platform::StringCompare` at line 246). -/
def filterMatches (filter key : List Char) : Bool := filter.isPrefixOf key

/-- One iteration of the read loop, lines 226-250: strip comments, `sscanf`
the remainder, apply the filter, store `RemoveQuotes(value)`. -/
def processLine (filter : String) (m : List (String × String)) (line : String) :
    List (String × String) :=
  match sscanfKeyValue (stripComment line.data) with
  | some (key, value) =>
      if filter.data = [] || filterMatches filter.data key then
        mapInsert m (String.mk key) (String.mk (RemoveQuotes value))
      else m
  | none => m

/-- How the input stream ends after the successfully read lines:
end-of-file, or a read error with the resulting `errno`. -/
inductive StreamEnd where
  | eof
  | err (e : Nat)
  deriving DecidableEq, Repr

/-- Abstraction of the `std::ifstream`: either it fails to open
(`openErr = some errno`), or it yields `lines` and then ends as `ending`. -/
structure IFile where
  openErr : Option Nat
  lines : List String
  ending : StreamEnd

/-- Function `LoadLayerSettingsFile`, settings_loader.cpp lines 204-268.  The `Bool`
component records whether the file was opened (the `std::ifstream` is only
constructed after the null check).  Returns `(result, opened, settings)`. -/
def LoadLayerSettingsFile (file : IFile) (filter : String)
    (settings : Option (List (String × String))) :
    Nat × Bool × Option (List (String × String)) :=
  match settings with
  | none => (EINVAL, false, none)
  | some m =>
      match file.openErr with
      | some e => (e, true, some m)
      | none =>
          let m2 := file.lines.foldl (fun acc line => processLine filter acc line) m
          match file.ending with
          | StreamEnd.eof => (0, true, some m2)
          | StreamEnd.err e => (e, true, some m2)

end Settings

/-! ## Part 2: generated DX12 wrapper entry points (`generated_dx12_wrappers.cpp`) -/

namespace Wrap

/-- The intercepted entry points embedded here (the ones the claims cite). -/
inductive EP where
  | createDXGIFactory
  | setPrivateData
  | getParent
  | d3d12CreateDevice
  | queryResourceResidency
  | executeCommandLists
  deriving DecidableEq, Repr

/-- An object reference as seen across the interception boundary: a null
pointer, a raw reference produced by the real driver, or a wrapper shim
around a real reference. -/
inductive ObjRef where
  | null
  | real (r : Nat)
  | wrapped (r : Nat)
  deriving DecidableEq, Repr

/-- One encoded call: the call identifier, the owning object's capture id
(0 for free functions), the status, the encoded argument references, and
an array length argument where the entry point has one. -/
structure TraceRecord where
  callId : EP
  thisId : Nat
  status : Int
  args : Option (List ObjRef)
  count : Nat
  deriving DecidableEq, Repr

/-- Observable actions of one intercepted call, in order of occurrence.
Scope events record the post-operation counter value. -/
inductive Event where
  | scopeEnter (post : Int)
  | scopeExit (post : Int)
  | preHook (ep : EP) (args : Option (List ObjRef)) (count : Nat)
  | realCall (ep : EP) (args : Option (List ObjRef)) (count : Nat)
  | wrapEvt (r : Nat) (id : Nat)
  | encodeEvt (rec0 : TraceRecord)
  | postHook (ep : EP) (args : Option (List ObjRef)) (count : Nat)
  | scratchUse
  deriving DecidableEq, Repr

/-- Capture-manager state visible to one thread: the per-thread call-scope
counter, the object map (real reference to capture id), the next capture id,
whether capture is enabled, the number of scratch allocations taken from the
handle-unwrap memory, the trace, and the event log. -/
structure CaptureState where
  callScope : Int
  objectMap : List (Nat × Nat)
  nextId : Nat
  captureEnabled : Bool
  scratchAllocs : Nat
  trace : List TraceRecord
  events : List Event
  deriving DecidableEq, Repr

/-- Macro `SUCCEEDED(hr)`: an `HRESULT` is a success iff it is nonnegative. -/
def SUCCEEDED (hr : Int) : Bool := decide (0 ≤ hr)

/-- Modelled from the spec: `D3D12CaptureManager::IncrementCallScope` — the
per-thread reentrancy counter is incremented and the post-increment depth is
returned, so callers test "am I outermost" via `== 1`. -/
def IncrementCallScope (s : CaptureState) : Int × CaptureState :=
  let post := s.callScope + 1
  (post, { s with callScope := post, events := s.events ++ [Event.scopeEnter post] })

/-- Modelled from the spec: `D3D12CaptureManager::DecrementCallScope` — the
per-thread reentrancy counter is decremented on exit. -/
def DecrementCallScope (s : CaptureState) : CaptureState :=
  let post := s.callScope - 1
  { s with callScope := post, events := s.events ++ [Event.scopeExit post] }

/-- Modelled from the spec: `GetWrappedObject` / `UnwrapOne` — returns the
real reference if the input is a wrapper, and the input unchanged otherwise
(defensive default for raw references). -/
def GetWrappedObject : ObjRef → ObjRef
  | ObjRef.wrapped r => ObjRef.real r
  | x => x

/-- Pure part of `WrapObject`: the reference handed back to the application. -/
def wrapRef : ObjRef → ObjRef
  | ObjRef.real r => ObjRef.wrapped r
  | x => x

/-- Modelled from the spec: `WrapObject` — a null (or already wrapped) output
is left alone; a real reference is replaced by its wrapper, and a new capture
id is allocated and registered in the object map only when the real object
has no entry yet (first wrap wins; repeated wraps reuse the entry). -/
def WrapObject (ref : ObjRef) (s : CaptureState) : ObjRef × CaptureState :=
  match ref with
  | ObjRef.real r =>
      match s.objectMap.lookup r with
      | some id =>
          (ObjRef.wrapped r, { s with events := s.events ++ [Event.wrapEvt r id] })
      | none =>
          (ObjRef.wrapped r,
           { s with objectMap := (r, s.nextId) :: s.objectMap,
                    nextId := s.nextId + 1,
                    events := s.events ++ [Event.wrapEvt r s.nextId] })
  | x => (x, s)

/-- Modelled from the spec: `UnwrapObjects(objects, count, unwrap_memory)` —
for a non-null array with a positive count, allocates a scratch copy from the
per-thread handle-unwrap memory and unwraps elementwise; a null array or a
zero count is a no-op returning null, with no scratch allocation. -/
def UnwrapObjects (objects : Option (List ObjRef)) (count : Nat) (s : CaptureState) :
    Option (List ObjRef) × CaptureState :=
  match objects with
  | some refs =>
      if count = 0 then (none, s)
      else
        (some (refs.map GetWrappedObject),
         { s with scratchAllocs := s.scratchAllocs + 1,
                  events := s.events ++ [Event.scratchUse] })
  | none => (none, s)

/-- Modelled from the spec: the `Encode_*` functions serialize the call into
the trace when capture is enabled, and skip the write when it is disabled. -/
def EncodeCall (callId : EP) (thisId : Nat) (status : Int)
    (args : Option (List ObjRef)) (count : Nat) (s : CaptureState) : CaptureState :=
  let r : TraceRecord := ⟨callId, thisId, status, args, count⟩
  let s1 := { s with events := s.events ++ [Event.encodeEvt r] }
  if s1.captureEnabled then { s1 with trace := s1.trace ++ [r] } else s1

/-- Pre-call hook `CustomWrapperPreCall<...>::Dispatch`; the default hook
only observes the call, modelled as an event. -/
def PreCallDispatch (ep : EP) (args : Option (List ObjRef)) (count : Nat)
    (s : CaptureState) : CaptureState :=
  { s with events := s.events ++ [Event.preHook ep args count] }

/-- Post-call hook `CustomWrapperPostCall<...>::Dispatch`, modelled as an
event. -/
def PostCallDispatch (ep : EP) (args : Option (List ObjRef)) (count : Nat)
    (s : CaptureState) : CaptureState :=
  { s with events := s.events ++ [Event.postHook ep args count] }

/-- Record that the real (dispatch-table) implementation was invoked with the
given forwarded arguments. -/
def noteRealCall (ep : EP) (args : Option (List ObjRef)) (count : Nat)
    (s : CaptureState) : CaptureState :=
  { s with events := s.events ++ [Event.realCall ep args count] }

/-- Behavior of the forwarded real call: it either returns a status and an
output reference, or it first calls back into an intercepted entry point on
the same thread (the reentrancy source of §5) and then continues. -/
inductive RealBehavior where
  | ret (status : Int) (out : ObjRef)
  | callback (ep : EP) (inner : RealBehavior) (cont : RealBehavior)
  deriving DecidableEq, Repr

/-- Status the real call finally returns. -/
def rbStatus : RealBehavior → Int
  | RealBehavior.ret st _ => st
  | RealBehavior.callback _ _ cont => rbStatus cont

/-- Output reference the real call finally produces. -/
def rbOut : RealBehavior → ObjRef
  | RealBehavior.ret _ o => o
  | RealBehavior.callback _ _ cont => rbOut cont

/-- Size measure used for termination of the interception semantics. -/
def rbSize : RealBehavior → Nat
  | RealBehavior.ret _ _ => 1
  | RealBehavior.callback _ inner cont => rbSize inner + rbSize cont + 2

mutual

/-- Entry point `CreateDXGIFactory`, generated_dx12_wrappers.cpp lines
148-194: increment the call scope; when the post-increment depth is 1, run
the pre-call hook, forward through the dispatch table, wrap the output on
success, encode the call and run the post-call hook; otherwise forward
directly.  Decrement the scope and return the forwarded result.  `rb` is the
behavior of the real implementation, `ppFactory` the out-parameter slot. -/
def CreateDXGIFactory (rb : RealBehavior) (ppFactory : ObjRef) (s : CaptureState) :
    Int × ObjRef × CaptureState :=
  let (call_scope, s1) := IncrementCallScope s
  if call_scope = 1 then
    let s2 := PreCallDispatch EP.createDXGIFactory (some [ppFactory]) 0 s1
    let (result, outv, s3) := runRB rb (noteRealCall EP.createDXGIFactory (some []) 0 s2)
    let (outw, s4) := if SUCCEEDED result then WrapObject outv s3 else (outv, s3)
    let s5 := EncodeCall EP.createDXGIFactory 0 result (some [outw]) 0 s4
    let s6 := PostCallDispatch EP.createDXGIFactory (some [outw]) 0 s5
    (result, outw, DecrementCallScope s6)
  else
    let (result, outv, s2) := runRB rb (noteRealCall EP.createDXGIFactory (some []) 0 s1)
    (result, outv, DecrementCallScope s2)
termination_by 2 * rbSize rb + 1
decreasing_by all_goals omega

/-- Method `IDXGIObject_Wrapper::SetPrivateData`, lines 248-298: same scope
discipline, no unwrapping and no output wrapping; the call is encoded with
the owning object's capture id. -/
def IDXGIObject_Wrapper_SetPrivateData (thisId : Nat) (rb : RealBehavior)
    (s : CaptureState) : Int × CaptureState :=
  let (call_scope, s1) := IncrementCallScope s
  if call_scope = 1 then
    let s2 := PreCallDispatch EP.setPrivateData (some []) 0 s1
    let (result, _, s3) := runRB rb (noteRealCall EP.setPrivateData (some []) 0 s2)
    let s4 := EncodeCall EP.setPrivateData thisId result (some []) 0 s3
    let s5 := PostCallDispatch EP.setPrivateData (some []) 0 s4
    (result, DecrementCallScope s5)
  else
    let (result, _, s2) := runRB rb (noteRealCall EP.setPrivateData (some []) 0 s1)
    (result, DecrementCallScope s2)
termination_by 2 * rbSize rb + 1
decreasing_by all_goals omega

/-- Method `IDXGIObject_Wrapper::GetParent`, lines 398-447: wrap-on-success
for the returned parent object, encoded with the owning object's capture
id. -/
def IDXGIObject_Wrapper_GetParent (thisId : Nat) (rb : RealBehavior)
    (ppParent : ObjRef) (s : CaptureState) : Int × ObjRef × CaptureState :=
  let (call_scope, s1) := IncrementCallScope s
  if call_scope = 1 then
    let s2 := PreCallDispatch EP.getParent (some [ppParent]) 0 s1
    let (result, outv, s3) := runRB rb (noteRealCall EP.getParent (some []) 0 s2)
    let (outw, s4) := if SUCCEEDED result then WrapObject outv s3 else (outv, s3)
    let s5 := EncodeCall EP.getParent thisId result (some [outw]) 0 s4
    let s6 := PostCallDispatch EP.getParent (some [outw]) 0 s5
    (result, outw, DecrementCallScope s6)
  else
    let (result, outv, s2) := runRB rb (noteRealCall EP.getParent (some []) 0 s1)
    (result, outv, DecrementCallScope s2)
termination_by 2 * rbSize rb + 1
decreasing_by all_goals omega

/-- Entry point `D3D12CreateDevice`, lines 7776-7834: the adapter argument is
unwrapped with `GetWrappedObject` before forwarding (outermost path only),
the new device is wrapped on success, and the encoder receives the adapter
argument as originally supplied. -/
def D3D12CreateDevice (rb : RealBehavior) (pAdapter : ObjRef) (ppDevice : ObjRef)
    (s : CaptureState) : Int × ObjRef × CaptureState :=
  let (call_scope, s1) := IncrementCallScope s
  if call_scope = 1 then
    let s2 := PreCallDispatch EP.d3d12CreateDevice (some [pAdapter, ppDevice]) 0 s1
    let (result, outv, s3) :=
      runRB rb (noteRealCall EP.d3d12CreateDevice (some [GetWrappedObject pAdapter]) 0 s2)
    let (outw, s4) := if SUCCEEDED result then WrapObject outv s3 else (outv, s3)
    let s5 := EncodeCall EP.d3d12CreateDevice 0 result (some [pAdapter, outw]) 0 s4
    let s6 := PostCallDispatch EP.d3d12CreateDevice (some [pAdapter, outw]) 0 s5
    (result, outw, DecrementCallScope s6)
  else
    let (result, outv, s2) :=
      runRB rb (noteRealCall EP.d3d12CreateDevice (some [pAdapter]) 0 s1)
    (result, outv, DecrementCallScope s2)
termination_by 2 * rbSize rb + 1
decreasing_by all_goals omega

/-- Method `IDXGIDevice_Wrapper::QueryResourceResidency`, lines 2551-2603:
on the outermost path the resource array is unwrapped into scratch memory
obtained from `GetHandleUnwrapMemory` and the scratch copy is forwarded,
while the encoder and the post-call hook receive the original array. -/
def IDXGIDevice_Wrapper_QueryResourceResidency (thisId : Nat) (rb : RealBehavior)
    (ppResources : Option (List ObjRef)) (NumResources : Nat) (s : CaptureState) :
    Int × CaptureState :=
  let (call_scope, s1) := IncrementCallScope s
  if call_scope = 1 then
    let s2 := PreCallDispatch EP.queryResourceResidency ppResources NumResources s1
    let (unwrapped, s3) := UnwrapObjects ppResources NumResources s2
    let (result, _, s4) :=
      runRB rb (noteRealCall EP.queryResourceResidency unwrapped NumResources s3)
    let s5 := EncodeCall EP.queryResourceResidency thisId result ppResources NumResources s4
    let s6 := PostCallDispatch EP.queryResourceResidency ppResources NumResources s5
    (result, DecrementCallScope s6)
  else
    let (result, _, s2) :=
      runRB rb (noteRealCall EP.queryResourceResidency ppResources NumResources s1)
    (result, DecrementCallScope s2)
termination_by 2 * rbSize rb + 1
decreasing_by all_goals omega

/-- Method `ID3D12CommandQueue_Wrapper::ExecuteCommandLists`, lines
12151-12191: void return; the command-list array is unwrapped into scratch
memory on the outermost path, and the original array is encoded. -/
def ID3D12CommandQueue_Wrapper_ExecuteCommandLists (thisId : Nat) (rb : RealBehavior)
    (NumCommandLists : Nat) (ppCommandLists : Option (List ObjRef)) (s : CaptureState) :
    CaptureState :=
  let (call_scope, s1) := IncrementCallScope s
  if call_scope = 1 then
    let s2 := PreCallDispatch EP.executeCommandLists ppCommandLists NumCommandLists s1
    let (unwrapped, s3) := UnwrapObjects ppCommandLists NumCommandLists s2
    let (_, _, s4) :=
      runRB rb (noteRealCall EP.executeCommandLists unwrapped NumCommandLists s3)
    let s5 := EncodeCall EP.executeCommandLists thisId 0 ppCommandLists NumCommandLists s4
    let s6 := PostCallDispatch EP.executeCommandLists ppCommandLists NumCommandLists s5
    DecrementCallScope s6
  else
    let (_, _, s2) :=
      runRB rb (noteRealCall EP.executeCommandLists ppCommandLists NumCommandLists s1)
    DecrementCallScope s2
termination_by 2 * rbSize rb + 1
decreasing_by all_goals omega

/-- Interpreter for the real call's behavior: a direct return yields the
status and output; a callback reenters the given intercepted entry point on
the same thread and then continues. -/
def runRB (rb : RealBehavior) (s : CaptureState) : Int × ObjRef × CaptureState :=
  match rb with
  | RealBehavior.ret st o => (st, o, s)
  | RealBehavior.callback ep inner cont => runRB cont (dispatchEP ep inner s)
termination_by 2 * rbSize rb
decreasing_by all_goals (simp only [rbSize]; omega)

/-- Reentry into an intercepted entry point from a driver callback; the
callback's own forwarded behavior is `inner`. -/
def dispatchEP (ep : EP) (inner : RealBehavior) (s : CaptureState) : CaptureState :=
  match ep with
  | EP.createDXGIFactory => (CreateDXGIFactory inner ObjRef.null s).2.2
  | EP.setPrivateData => (IDXGIObject_Wrapper_SetPrivateData 0 inner s).2
  | EP.getParent => (IDXGIObject_Wrapper_GetParent 0 inner ObjRef.null s).2.2
  | EP.d3d12CreateDevice => (D3D12CreateDevice inner ObjRef.null ObjRef.null s).2.2
  | EP.queryResourceResidency =>
      (IDXGIDevice_Wrapper_QueryResourceResidency 0 inner none 0 s).2
  | EP.executeCommandLists =>
      ID3D12CommandQueue_Wrapper_ExecuteCommandLists 0 inner 0 none s
termination_by 2 * rbSize inner + 2
decreasing_by all_goals omega

end

/-! ### Classification of events and the reentrancy invariant -/

/-- Events that are interception work: hooks, wrapping, encoding and scratch
allocation.  Scope bookkeeping and the forwarded real call are not. -/
def isIntercept : Event → Bool
  | Event.preHook _ _ _ => true
  | Event.postHook _ _ _ => true
  | Event.encodeEvt _ => true
  | Event.wrapEvt _ _ => true
  | Event.scratchUse => true
  | _ => false

/-- Output-wrapping events. -/
def isWrapEvent : Event → Bool
  | Event.wrapEvt _ _ => true
  | _ => false

/-- Scope-increment events. -/
def isEnter : Event → Bool
  | Event.scopeEnter _ => true
  | _ => false

/-- Scope-decrement events. -/
def isExit : Event → Bool
  | Event.scopeExit _ => true
  | _ => false

/-- Scope events stay at or above the base depth `c`: an enter records a
depth strictly above `c`, an exit a depth no lower than `c`. -/
def scopeOK (c : Int) : Event → Bool
  | Event.scopeEnter p => decide (c + 1 ≤ p)
  | Event.scopeExit p => decide (c ≤ p)
  | _ => true

/-- Capture-visible components that a reentrant call leaves unchanged. -/
def SameCapture (s t : CaptureState) : Prop :=
  t.callScope = s.callScope ∧ t.objectMap = s.objectMap ∧ t.nextId = s.nextId ∧
  t.captureEnabled = s.captureEnabled ∧ t.scratchAllocs = s.scratchAllocs ∧
  t.trace = s.trace

/-- Full effect of a reentrant (pass-through) execution starting from `s`:
the capture state is unchanged, and the appended events contain no
interception work, balance their scope increments and decrements, and keep
the counter at or above its starting depth. -/
def NestedOut (s t : CaptureState) : Prop :=
  SameCapture s t ∧ ∃ new : List Event,
    t.events = s.events ++ new ∧
    new.all (fun e => !(isIntercept e)) = true ∧
    new.countP (fun e => isEnter e) = new.countP (fun e => isExit e) ∧
    new.all (scopeOK s.callScope) = true

/-- Reentrancy invariant of the forwarded real behavior: run at any depth
of at least 1, it passes through without touching the capture state. -/
def NestedInv (rb : RealBehavior) : Prop :=
  ∀ s : CaptureState, 1 ≤ s.callScope → NestedOut s (runRB rb s).2.2

/-- Pure map-update part of `WrapObject`: the object map and next capture id
after wrapping. -/
def wrapMap (ref : ObjRef) (m : List (Nat × Nat)) (nid : Nat) :
    List (Nat × Nat) × Nat :=
  match ref with
  | ObjRef.real r =>
      match m.lookup r with
      | some _ => (m, nid)
      | none => ((r, nid) :: m, nid + 1)
  | _ => (m, nid)

/-- Events emitted by `WrapObject`. -/
def wrapEvents (ref : ObjRef) (m : List (Nat × Nat)) (nid : Nat) : List Event :=
  match ref with
  | ObjRef.real r =>
      match m.lookup r with
      | some id => [Event.wrapEvt r id]
      | none => [Event.wrapEvt r nid]
  | _ => []

/-- Pure value part of `UnwrapObjects`. -/
def unwrapArr (objects : Option (List ObjRef)) (count : Nat) : Option (List ObjRef) :=
  match objects with
  | some refs => if count = 0 then none else some (refs.map GetWrappedObject)
  | none => none

/-- Scratch allocations taken by `UnwrapObjects`. -/
def scratchDelta (objects : Option (List ObjRef)) (count : Nat) : Nat :=
  match objects with
  | some _ => if count = 0 then 0 else 1
  | none => 0

/-- One balanced call's event block: the events appended by a single
intercepted call open with the scope increment to depth `c + 1`, close with
the scope decrement back to depth `c`, balance increments against
decrements, and never take the counter below `c`. -/
def CallEvents (s t : CaptureState) (c : Int) : Prop :=
  ∃ new : List Event,
    t.events = s.events ++ new ∧
    new.head? = some (Event.scopeEnter (c + 1)) ∧
    new.getLast? = some (Event.scopeExit c) ∧
    new.countP (fun e => isEnter e) = new.countP (fun e => isExit e) ∧
    new.all (scopeOK c) = true

/-- State reached after the scope increment, the pre-call hook and the
forwarding note of a non-array entry point (outermost path). -/
def preStateA (ep : EP) (argsPre argsReal : Option (List ObjRef)) (s : CaptureState) :
    CaptureState :=
  noteRealCall ep argsReal 0 (PreCallDispatch ep argsPre 0 (IncrementCallScope s).2)

/-- State reached after the scope increment, the pre-call hook, the array
unwrap and the forwarding note of an array entry point (outermost path). -/
def preStateU (ep : EP) (args : Option (List ObjRef)) (cnt : Nat) (s : CaptureState) :
    CaptureState :=
  noteRealCall ep (UnwrapObjects args cnt (PreCallDispatch ep args cnt (IncrementCallScope s).2)).1
    cnt (UnwrapObjects args cnt (PreCallDispatch ep args cnt (IncrementCallScope s).2)).2

/-- The wrap-on-success step of a create-style entry point. -/
def wPair (rb : RealBehavior) (u : CaptureState) : ObjRef × CaptureState :=
  if SUCCEEDED (runRB rb u).1 = true then WrapObject (runRB rb u).2.1 (runRB rb u).2.2
  else ((runRB rb u).2.1, (runRB rb u).2.2)

/-- Output handed back to the application by a wrap-on-success entry point. -/
def outWrapped (rb : RealBehavior) : ObjRef :=
  if SUCCEEDED (rbStatus rb) = true then wrapRef (rbOut rb) else rbOut rb

/-- The closing sequence shared by every outermost call: encode, post-call
hook, scope decrement. -/
def finishCall (ep : EP) (thisId : Nat) (st : Int) (args : Option (List ObjRef))
    (cnt : Nat) (X : CaptureState) : CaptureState :=
  DecrementCallScope (PostCallDispatch ep args cnt (EncodeCall ep thisId st args cnt X))

theorem WrapObject_eq (ref : ObjRef) (s : CaptureState) :
    WrapObject ref s =
      (wrapRef ref,
       { s with objectMap := (wrapMap ref s.objectMap s.nextId).1,
                nextId := (wrapMap ref s.objectMap s.nextId).2,
                events := s.events ++ wrapEvents ref s.objectMap s.nextId }) := by
  cases ref with
  | null => simp [WrapObject, wrapRef, wrapMap, wrapEvents]
  | wrapped r => simp [WrapObject, wrapRef, wrapMap, wrapEvents]
  | real r =>
      cases h : s.objectMap.lookup r with
      | none => simp [WrapObject, wrapRef, wrapMap, wrapEvents, h]
      | some id => simp [WrapObject, wrapRef, wrapMap, wrapEvents, h]

theorem UnwrapObjects_eq (objects : Option (List ObjRef)) (count : Nat)
    (s : CaptureState) :
    UnwrapObjects objects count s =
      (unwrapArr objects count,
       { s with scratchAllocs := s.scratchAllocs + scratchDelta objects count,
                events := s.events ++
                  (if scratchDelta objects count = 0 then [] else [Event.scratchUse]) }) := by
  cases objects with
  | none => simp [UnwrapObjects, unwrapArr, scratchDelta]
  | some refs =>
      by_cases h : count = 0
      · simp [UnwrapObjects, unwrapArr, scratchDelta, h]
      · simp [UnwrapObjects, unwrapArr, scratchDelta, h]

theorem runRB_fst (rb : RealBehavior) (s : CaptureState) :
    (runRB rb s).1 = rbStatus rb := by
  induction rb generalizing s with
  | ret st o => simp [runRB, rbStatus]
  | callback ep inner cont ih1 ih2 => simp [runRB, rbStatus, ih2]

theorem runRB_out (rb : RealBehavior) (s : CaptureState) :
    (runRB rb s).2.1 = rbOut rb := by
  induction rb generalizing s with
  | ret st o => simp [runRB, rbOut]
  | callback ep inner cont ih1 ih2 => simp [runRB, rbOut, ih2]

theorem scopeOK_mono {c c' : Int} (h : c ≤ c') (e : Event)
    (he : scopeOK c' e = true) : scopeOK c e = true := by
  cases e <;> simp [scopeOK] at he ⊢ <;> omega

theorem scopeOK_mono_all {c c' : Int} (h : c ≤ c') (l : List Event)
    (hl : l.all (scopeOK c') = true) : l.all (scopeOK c) = true := by
  simp only [List.all_eq_true] at hl ⊢
  exact fun e he => scopeOK_mono h e (hl e he)

theorem NestedOut.trans {s t u : CaptureState} (h1 : NestedOut s t)
    (h2 : NestedOut t u) : NestedOut s u := by
  obtain ⟨⟨c1, m1, n1, e1, a1, t1⟩, new1, ev1, ni1, bal1, ok1⟩ := h1
  obtain ⟨⟨c2, m2, n2, e2, a2, t2⟩, new2, ev2, ni2, bal2, ok2⟩ := h2
  refine ⟨⟨by rw [c2, c1], by rw [m2, m1], by rw [n2, n1], by rw [e2, e1],
           by rw [a2, a1], by rw [t2, t1]⟩, new1 ++ new2, ?_, ?_, ?_, ?_⟩
  · rw [ev2, ev1, List.append_assoc]
  · simp only [List.all_append, ni1, ni2, Bool.and_self]
  · simp only [List.countP_append, bal1, bal2]
  · simp only [List.all_append, ok1, Bool.true_and]
    exact c1 ▸ ok2

/-- Effect of the pass-through (else) branch shared by every intercepted
entry point: increment the scope, forward to the real implementation,
decrement the scope. -/
theorem elseNested (ep : EP) (args : Option (List ObjRef)) (cnt : Nat)
    (rb : RealBehavior) (hinv : NestedInv rb) (s : CaptureState)
    (h : 1 ≤ s.callScope) :
    NestedOut s (DecrementCallScope
      ((runRB rb (noteRealCall ep args cnt (IncrementCallScope s).2)).2.2)) ∧
    CallEvents s (DecrementCallScope
      ((runRB rb (noteRealCall ep args cnt (IncrementCallScope s).2)).2.2))
      s.callScope := by
  obtain ⟨⟨cv, mv, nv, ev, av, tv⟩, mid, hev, hni, hbal, hok⟩ :=
    hinv (noteRealCall ep args cnt (IncrementCallScope s).2)
      (by simp [noteRealCall, IncrementCallScope]; omega)
  set v := (runRB rb (noteRealCall ep args cnt (IncrementCallScope s).2)).2.2 with hv
  simp only [noteRealCall, IncrementCallScope] at cv mv nv ev av tv hev hok
  have hevents : (DecrementCallScope v).events =
      s.events ++ (Event.scopeEnter (s.callScope + 1) :: Event.realCall ep args cnt ::
        (mid ++ [Event.scopeExit s.callScope])) := by
    simp only [DecrementCallScope, hev, cv]
    have h11 : s.callScope + 1 - 1 = s.callScope := by omega
    rw [h11]
    simp [List.append_assoc]
  have hbal2 :
      (Event.scopeEnter (s.callScope + 1) :: Event.realCall ep args cnt ::
        (mid ++ [Event.scopeExit s.callScope])).countP (fun e => isEnter e) =
      (Event.scopeEnter (s.callScope + 1) :: Event.realCall ep args cnt ::
        (mid ++ [Event.scopeExit s.callScope])).countP (fun e => isExit e) := by
    simp only [List.countP_cons, List.countP_append, List.countP_nil,
               isEnter, isExit] at hbal ⊢
    omega
  have hok2 :
      (Event.scopeEnter (s.callScope + 1) :: Event.realCall ep args cnt ::
        (mid ++ [Event.scopeExit s.callScope])).all (scopeOK s.callScope) = true := by
    simp only [List.all_eq_true] at hok ⊢
    intro e he
    simp only [List.mem_cons, List.mem_append, List.mem_singleton,
               List.not_mem_nil, or_false] at he
    rcases he with h1 | h1 | h1 | h1
    · subst h1; simp [scopeOK]
    · subst h1; rfl
    · exact scopeOK_mono (by omega) e (hok e h1)
    · subst h1; simp [scopeOK]
  constructor
  · refine ⟨⟨?_, ?_, ?_, ?_, ?_, ?_⟩,
      Event.scopeEnter (s.callScope + 1) :: Event.realCall ep args cnt ::
        (mid ++ [Event.scopeExit s.callScope]), hevents, ?_, hbal2, hok2⟩
    · simp [DecrementCallScope, cv]
    · simp [DecrementCallScope, mv]
    · simp [DecrementCallScope, nv]
    · simp [DecrementCallScope, ev]
    · simp [DecrementCallScope, av]
    · simp [DecrementCallScope, tv]
    · simp only [List.all_eq_true] at hni ⊢
      intro e he
      simp only [List.mem_cons, List.mem_append, List.mem_singleton,
                 List.not_mem_nil, or_false] at he
      rcases he with h1 | h1 | h1 | h1
      · subst h1; rfl
      · subst h1; rfl
      · exact hni e h1
      · subst h1; rfl
  · refine ⟨Event.scopeEnter (s.callScope + 1) :: Event.realCall ep args cnt ::
      (mid ++ [Event.scopeExit s.callScope]), hevents, rfl, ?_, hbal2, hok2⟩
    have hsh : Event.scopeEnter (s.callScope + 1) :: Event.realCall ep args cnt ::
        (mid ++ [Event.scopeExit s.callScope]) =
        (Event.scopeEnter (s.callScope + 1) :: Event.realCall ep args cnt :: mid) ++
          [Event.scopeExit s.callScope] := by
      simp [List.append_assoc]
    rw [hsh, List.getLast?_concat]

theorem CreateDXGIFactory_else_state (rb : RealBehavior) (ref : ObjRef)
    (s : CaptureState) (h : ¬ (s.callScope + 1 = 1)) :
    (CreateDXGIFactory rb ref s).2.2 =
      DecrementCallScope ((runRB rb (noteRealCall EP.createDXGIFactory (some []) 0
        (IncrementCallScope s).2)).2.2) := by
  rw [CreateDXGIFactory]
  simp only [IncrementCallScope]
  rw [if_neg h]

theorem SetPrivateData_else_state (thisId : Nat) (rb : RealBehavior)
    (s : CaptureState) (h : ¬ (s.callScope + 1 = 1)) :
    (IDXGIObject_Wrapper_SetPrivateData thisId rb s).2 =
      DecrementCallScope ((runRB rb (noteRealCall EP.setPrivateData (some []) 0
        (IncrementCallScope s).2)).2.2) := by
  rw [IDXGIObject_Wrapper_SetPrivateData]
  simp only [IncrementCallScope]
  rw [if_neg h]

theorem GetParent_else_state (thisId : Nat) (rb : RealBehavior) (ref : ObjRef)
    (s : CaptureState) (h : ¬ (s.callScope + 1 = 1)) :
    (IDXGIObject_Wrapper_GetParent thisId rb ref s).2.2 =
      DecrementCallScope ((runRB rb (noteRealCall EP.getParent (some []) 0
        (IncrementCallScope s).2)).2.2) := by
  rw [IDXGIObject_Wrapper_GetParent]
  simp only [IncrementCallScope]
  rw [if_neg h]

theorem D3D12CreateDevice_else_state (rb : RealBehavior) (pAdapter ppDevice : ObjRef)
    (s : CaptureState) (h : ¬ (s.callScope + 1 = 1)) :
    (D3D12CreateDevice rb pAdapter ppDevice s).2.2 =
      DecrementCallScope ((runRB rb (noteRealCall EP.d3d12CreateDevice (some [pAdapter]) 0
        (IncrementCallScope s).2)).2.2) := by
  rw [D3D12CreateDevice]
  simp only [IncrementCallScope]
  rw [if_neg h]

theorem QueryResourceResidency_else_state (thisId : Nat) (rb : RealBehavior)
    (ppResources : Option (List ObjRef)) (NumResources : Nat)
    (s : CaptureState) (h : ¬ (s.callScope + 1 = 1)) :
    (IDXGIDevice_Wrapper_QueryResourceResidency thisId rb ppResources NumResources s).2 =
      DecrementCallScope ((runRB rb (noteRealCall EP.queryResourceResidency ppResources
        NumResources (IncrementCallScope s).2)).2.2) := by
  rw [IDXGIDevice_Wrapper_QueryResourceResidency]
  simp only [IncrementCallScope]
  rw [if_neg h]

theorem ExecuteCommandLists_else_state (thisId : Nat) (rb : RealBehavior)
    (NumCommandLists : Nat) (ppCommandLists : Option (List ObjRef))
    (s : CaptureState) (h : ¬ (s.callScope + 1 = 1)) :
    ID3D12CommandQueue_Wrapper_ExecuteCommandLists thisId rb NumCommandLists ppCommandLists s =
      DecrementCallScope ((runRB rb (noteRealCall EP.executeCommandLists ppCommandLists
        NumCommandLists (IncrementCallScope s).2)).2.2) := by
  rw [ID3D12CommandQueue_Wrapper_ExecuteCommandLists]
  simp only [IncrementCallScope]
  rw [if_neg h]

theorem finishCall_comps (ep : EP) (thisId : Nat) (st : Int)
    (args : Option (List ObjRef)) (cnt : Nat) (X : CaptureState) :
    (finishCall ep thisId st args cnt X).callScope = X.callScope - 1 ∧
    (finishCall ep thisId st args cnt X).objectMap = X.objectMap ∧
    (finishCall ep thisId st args cnt X).nextId = X.nextId ∧
    (finishCall ep thisId st args cnt X).captureEnabled = X.captureEnabled ∧
    (finishCall ep thisId st args cnt X).scratchAllocs = X.scratchAllocs ∧
    (finishCall ep thisId st args cnt X).trace =
      X.trace ++ (if X.captureEnabled = true then [⟨ep, thisId, st, args, cnt⟩] else []) ∧
    (finishCall ep thisId st args cnt X).events =
      X.events ++ [Event.encodeEvt ⟨ep, thisId, st, args, cnt⟩,
        Event.postHook ep args cnt, Event.scopeExit (X.callScope - 1)] := by
  by_cases hX : X.captureEnabled = true
  · simp [finishCall, EncodeCall, PostCallDispatch, DecrementCallScope, hX]
  · simp only [Bool.not_eq_true] at hX
    simp [finishCall, EncodeCall, PostCallDispatch, DecrementCallScope, hX]

theorem wPair_fst (rb : RealBehavior) (u : CaptureState) :
    (wPair rb u).1 = outWrapped rb := by
  by_cases hs : SUCCEEDED (rbStatus rb) = true <;>
    simp [wPair, outWrapped, WrapObject_eq, runRB_fst, runRB_out, hs]

theorem wPair_comps (rb : RealBehavior) (u : CaptureState) :
    (wPair rb u).2.callScope = (runRB rb u).2.2.callScope ∧
    (wPair rb u).2.objectMap =
      (if SUCCEEDED (rbStatus rb) = true
       then (wrapMap (rbOut rb) (runRB rb u).2.2.objectMap (runRB rb u).2.2.nextId).1
       else (runRB rb u).2.2.objectMap) ∧
    (wPair rb u).2.nextId =
      (if SUCCEEDED (rbStatus rb) = true
       then (wrapMap (rbOut rb) (runRB rb u).2.2.objectMap (runRB rb u).2.2.nextId).2
       else (runRB rb u).2.2.nextId) ∧
    (wPair rb u).2.captureEnabled = (runRB rb u).2.2.captureEnabled ∧
    (wPair rb u).2.scratchAllocs = (runRB rb u).2.2.scratchAllocs ∧
    (wPair rb u).2.trace = (runRB rb u).2.2.trace ∧
    (wPair rb u).2.events = (runRB rb u).2.2.events ++
      (if SUCCEEDED (rbStatus rb) = true
       then wrapEvents (rbOut rb) (runRB rb u).2.2.objectMap (runRB rb u).2.2.nextId
       else []) := by
  by_cases hs : SUCCEEDED (rbStatus rb) = true <;>
    simp [wPair, WrapObject_eq, runRB_fst, runRB_out, hs]

theorem preStateA_comps (ep : EP) (a b : Option (List ObjRef)) (s : CaptureState) :
    (preStateA ep a b s).callScope = s.callScope + 1 ∧
    (preStateA ep a b s).objectMap = s.objectMap ∧
    (preStateA ep a b s).nextId = s.nextId ∧
    (preStateA ep a b s).captureEnabled = s.captureEnabled ∧
    (preStateA ep a b s).scratchAllocs = s.scratchAllocs ∧
    (preStateA ep a b s).trace = s.trace ∧
    (preStateA ep a b s).events = s.events ++
      [Event.scopeEnter (s.callScope + 1), Event.preHook ep a 0, Event.realCall ep b 0] := by
  simp [preStateA, noteRealCall, PreCallDispatch, IncrementCallScope]

theorem preStateU_comps (ep : EP) (args : Option (List ObjRef)) (cnt : Nat)
    (s : CaptureState) :
    (preStateU ep args cnt s).callScope = s.callScope + 1 ∧
    (preStateU ep args cnt s).objectMap = s.objectMap ∧
    (preStateU ep args cnt s).nextId = s.nextId ∧
    (preStateU ep args cnt s).captureEnabled = s.captureEnabled ∧
    (preStateU ep args cnt s).scratchAllocs = s.scratchAllocs + scratchDelta args cnt ∧
    (preStateU ep args cnt s).trace = s.trace ∧
    (preStateU ep args cnt s).events = s.events ++
      Event.scopeEnter (s.callScope + 1) :: Event.preHook ep args cnt ::
      ((if scratchDelta args cnt = 0 then [] else [Event.scratchUse]) ++
       [Event.realCall ep (unwrapArr args cnt) cnt]) := by
  refine ⟨?_, ?_, ?_, ?_, ?_, ?_, ?_⟩ <;>
    simp [preStateU, noteRealCall, PreCallDispatch, IncrementCallScope, UnwrapObjects_eq]

/-- Main reentrancy theorem: every forwarded real behavior, run at depth at
least 1, passes through without touching the capture state, whatever nested
callbacks into intercepted entry points it performs. -/
theorem nestedInvAll : ∀ rb : RealBehavior, NestedInv rb := by
  intro rb
  induction rb with
  | ret st o =>
      intro s h
      have hr : runRB (RealBehavior.ret st o) s = (st, o, s) := by rw [runRB]
      rw [hr]
      exact ⟨⟨rfl, rfl, rfl, rfl, rfl, rfl⟩, [], by simp, rfl, rfl, rfl⟩
  | callback ep inner cont ih1 ih2 =>
      intro s h
      have hne : ¬ (s.callScope + 1 = 1) := by omega
      have hd : NestedOut s (dispatchEP ep inner s) := by
        cases ep
        · simp only [dispatchEP]
          rw [CreateDXGIFactory_else_state _ _ _ hne]
          exact (elseNested _ _ _ inner ih1 s h).1
        · simp only [dispatchEP]
          rw [SetPrivateData_else_state _ _ _ hne]
          exact (elseNested _ _ _ inner ih1 s h).1
        · simp only [dispatchEP]
          rw [GetParent_else_state _ _ _ _ hne]
          exact (elseNested _ _ _ inner ih1 s h).1
        · simp only [dispatchEP]
          rw [D3D12CreateDevice_else_state _ _ _ _ hne]
          exact (elseNested _ _ _ inner ih1 s h).1
        · simp only [dispatchEP]
          rw [QueryResourceResidency_else_state _ _ _ _ _ hne]
          exact (elseNested _ _ _ inner ih1 s h).1
        · simp only [dispatchEP]
          rw [ExecuteCommandLists_else_state _ _ _ _ _ hne]
          exact (elseNested _ _ _ inner ih1 s h).1
      have h2 : NestedOut (dispatchEP ep inner s) (runRB cont (dispatchEP ep inner s)).2.2 :=
        ih2 (dispatchEP ep inner s) (by rw [hd.1.1]; exact h)
      have hr : runRB (RealBehavior.callback ep inner cont) s =
          runRB cont (dispatchEP ep inner s) := by rw [runRB]
      rw [hr]
      exact hd.trans h2

theorem CreateDXGIFactory_res (rb : RealBehavior) (ref : ObjRef) (s : CaptureState)
    (h : s.callScope + 1 = 1) :
    (CreateDXGIFactory rb ref s).1 =
      (runRB rb (preStateA EP.createDXGIFactory (some [ref]) (some []) s)).1 := by
  rw [CreateDXGIFactory]
  simp only [IncrementCallScope, preStateA]
  rw [if_pos h]

theorem CreateDXGIFactory_outv (rb : RealBehavior) (ref : ObjRef) (s : CaptureState)
    (h : s.callScope + 1 = 1) :
    (CreateDXGIFactory rb ref s).2.1 =
      (wPair rb (preStateA EP.createDXGIFactory (some [ref]) (some []) s)).1 := by
  rw [CreateDXGIFactory]
  simp only [IncrementCallScope, preStateA, wPair]
  rw [if_pos h]

theorem CreateDXGIFactory_state_outer (rb : RealBehavior) (ref : ObjRef) (s : CaptureState)
    (h : s.callScope + 1 = 1) :
    (CreateDXGIFactory rb ref s).2.2 =
      finishCall EP.createDXGIFactory 0
        (runRB rb (preStateA EP.createDXGIFactory (some [ref]) (some []) s)).1
        (some [(wPair rb (preStateA EP.createDXGIFactory (some [ref]) (some []) s)).1]) 0
        (wPair rb (preStateA EP.createDXGIFactory (some [ref]) (some []) s)).2 := by
  rw [CreateDXGIFactory]
  simp only [IncrementCallScope, preStateA, wPair, finishCall]
  rw [if_pos h]

/-- Full characterization of an outermost `CreateDXGIFactory` call. -/
theorem CreateDXGIFactory_outermost (rb : RealBehavior) (ref : ObjRef) (s : CaptureState)
    (h : s.callScope = 0) :
    (CreateDXGIFactory rb ref s).1 = rbStatus rb ∧
    (CreateDXGIFactory rb ref s).2.1 = outWrapped rb ∧
    (CreateDXGIFactory rb ref s).2.2.callScope = 0 ∧
    (CreateDXGIFactory rb ref s).2.2.captureEnabled = s.captureEnabled ∧
    (CreateDXGIFactory rb ref s).2.2.scratchAllocs = s.scratchAllocs ∧
    (CreateDXGIFactory rb ref s).2.2.objectMap =
      (if SUCCEEDED (rbStatus rb) = true then (wrapMap (rbOut rb) s.objectMap s.nextId).1
       else s.objectMap) ∧
    (CreateDXGIFactory rb ref s).2.2.nextId =
      (if SUCCEEDED (rbStatus rb) = true then (wrapMap (rbOut rb) s.objectMap s.nextId).2
       else s.nextId) ∧
    (CreateDXGIFactory rb ref s).2.2.trace =
      s.trace ++ (if s.captureEnabled = true
        then [⟨EP.createDXGIFactory, 0, rbStatus rb, some [outWrapped rb], 0⟩] else []) ∧
    ∃ mid : List Event,
      (CreateDXGIFactory rb ref s).2.2.events =
        s.events ++ Event.scopeEnter 1 :: Event.preHook EP.createDXGIFactory (some [ref]) 0 ::
          Event.realCall EP.createDXGIFactory (some []) 0 ::
          (mid ++ (if SUCCEEDED (rbStatus rb) = true
                   then wrapEvents (rbOut rb) s.objectMap s.nextId else []) ++
           [Event.encodeEvt ⟨EP.createDXGIFactory, 0, rbStatus rb, some [outWrapped rb], 0⟩,
            Event.postHook EP.createDXGIFactory (some [outWrapped rb]) 0,
            Event.scopeExit 0]) ∧
      (mid.all fun e => !(isIntercept e)) = true ∧
      mid.countP (fun e => isEnter e) = mid.countP (fun e => isExit e) ∧
      mid.all (scopeOK 1) = true := by
  have hc : s.callScope + 1 = 1 := by omega
  rw [CreateDXGIFactory_res rb ref s hc, CreateDXGIFactory_outv rb ref s hc,
      CreateDXGIFactory_state_outer rb ref s hc]
  simp only [runRB_fst, wPair_fst]
  obtain ⟨⟨cv, mv, nv, ev, av, tv⟩, mid, hev, hni, hbal, hok⟩ :=
    nestedInvAll rb (preStateA EP.createDXGIFactory (some [ref]) (some []) s)
      (by simp [preStateA, noteRealCall, PreCallDispatch, IncrementCallScope]; omega)
  obtain ⟨p1, p2, p3, p4, p5, p6, p7⟩ :=
    preStateA_comps EP.createDXGIFactory (some [ref]) (some []) s
  rw [p1] at cv hok
  rw [p2] at mv
  rw [p3] at nv
  rw [p4] at ev
  rw [p5] at av
  rw [p6] at tv
  rw [p7] at hev
  obtain ⟨w1, w2, w3, w4, w5, w6, w7⟩ :=
    wPair_comps rb (preStateA EP.createDXGIFactory (some [ref]) (some []) s)
  obtain ⟨f1, f2, f3, f4, f5, f6, f7⟩ :=
    finishCall_comps EP.createDXGIFactory 0 (rbStatus rb) (some [outWrapped rb]) 0
      (wPair rb (preStateA EP.createDXGIFactory (some [ref]) (some []) s)).2
  refine ⟨trivial, trivial, ?_, ?_, ?_, ?_, ?_, ?_, mid, ?_, hni, hbal, ?_⟩
  · rw [f1, w1, cv]; omega
  · rw [f4, w4, ev]
  · rw [f5, w5, av]
  · rw [f2, w2, mv, nv]
  · rw [f3, w3, mv, nv]
  · rw [f6, w6, w4, tv, ev]
  · rw [f7, w7, w1, cv, hev, mv, nv]
    simp [h, List.append_assoc]
  · simpa [h] using hok

theorem SetPrivateData_res (thisId : Nat) (rb : RealBehavior) (s : CaptureState)
    (h : s.callScope + 1 = 1) :
    (IDXGIObject_Wrapper_SetPrivateData thisId rb s).1 =
      (runRB rb (preStateA EP.setPrivateData (some []) (some []) s)).1 := by
  rw [IDXGIObject_Wrapper_SetPrivateData]
  simp only [IncrementCallScope, preStateA]
  rw [if_pos h]

theorem SetPrivateData_state_outer (thisId : Nat) (rb : RealBehavior) (s : CaptureState)
    (h : s.callScope + 1 = 1) :
    (IDXGIObject_Wrapper_SetPrivateData thisId rb s).2 =
      finishCall EP.setPrivateData thisId
        (runRB rb (preStateA EP.setPrivateData (some []) (some []) s)).1 (some []) 0
        (runRB rb (preStateA EP.setPrivateData (some []) (some []) s)).2.2 := by
  rw [IDXGIObject_Wrapper_SetPrivateData]
  simp only [IncrementCallScope, preStateA, finishCall]
  rw [if_pos h]

/-- Full characterization of an outermost `SetPrivateData` call. -/
theorem SetPrivateData_outermost (thisId : Nat) (rb : RealBehavior) (s : CaptureState)
    (h : s.callScope = 0) :
    (IDXGIObject_Wrapper_SetPrivateData thisId rb s).1 = rbStatus rb ∧
    (IDXGIObject_Wrapper_SetPrivateData thisId rb s).2.callScope = 0 ∧
    (IDXGIObject_Wrapper_SetPrivateData thisId rb s).2.captureEnabled = s.captureEnabled ∧
    (IDXGIObject_Wrapper_SetPrivateData thisId rb s).2.scratchAllocs = s.scratchAllocs ∧
    (IDXGIObject_Wrapper_SetPrivateData thisId rb s).2.objectMap = s.objectMap ∧
    (IDXGIObject_Wrapper_SetPrivateData thisId rb s).2.nextId = s.nextId ∧
    (IDXGIObject_Wrapper_SetPrivateData thisId rb s).2.trace =
      s.trace ++ (if s.captureEnabled = true
        then [⟨EP.setPrivateData, thisId, rbStatus rb, some [], 0⟩] else []) ∧
    ∃ mid : List Event,
      (IDXGIObject_Wrapper_SetPrivateData thisId rb s).2.events =
        s.events ++ Event.scopeEnter 1 :: Event.preHook EP.setPrivateData (some []) 0 ::
          Event.realCall EP.setPrivateData (some []) 0 ::
          (mid ++
           [Event.encodeEvt ⟨EP.setPrivateData, thisId, rbStatus rb, some [], 0⟩,
            Event.postHook EP.setPrivateData (some []) 0,
            Event.scopeExit 0]) ∧
      (mid.all fun e => !(isIntercept e)) = true ∧
      mid.countP (fun e => isEnter e) = mid.countP (fun e => isExit e) ∧
      mid.all (scopeOK 1) = true := by
  have hc : s.callScope + 1 = 1 := by omega
  rw [SetPrivateData_res thisId rb s hc, SetPrivateData_state_outer thisId rb s hc]
  simp only [runRB_fst]
  obtain ⟨⟨cv, mv, nv, ev, av, tv⟩, mid, hev, hni, hbal, hok⟩ :=
    nestedInvAll rb (preStateA EP.setPrivateData (some []) (some []) s)
      (by simp [preStateA, noteRealCall, PreCallDispatch, IncrementCallScope]; omega)
  obtain ⟨p1, p2, p3, p4, p5, p6, p7⟩ :=
    preStateA_comps EP.setPrivateData (some []) (some []) s
  rw [p1] at cv hok
  rw [p2] at mv
  rw [p3] at nv
  rw [p4] at ev
  rw [p5] at av
  rw [p6] at tv
  rw [p7] at hev
  obtain ⟨f1, f2, f3, f4, f5, f6, f7⟩ :=
    finishCall_comps EP.setPrivateData thisId (rbStatus rb) (some []) 0
      (runRB rb (preStateA EP.setPrivateData (some []) (some []) s)).2.2
  refine ⟨trivial, ?_, ?_, ?_, ?_, ?_, ?_, mid, ?_, hni, hbal, ?_⟩
  · rw [f1, cv]; omega
  · rw [f4, ev]
  · rw [f5, av]
  · rw [f2, mv]
  · rw [f3, nv]
  · rw [f6, tv, ev]
  · rw [f7, cv, hev]
    simp [h, List.append_assoc]
  · simpa [h] using hok

theorem GetParent_res (thisId : Nat) (rb : RealBehavior) (ref : ObjRef) (s : CaptureState)
    (h : s.callScope + 1 = 1) :
    (IDXGIObject_Wrapper_GetParent thisId rb ref s).1 =
      (runRB rb (preStateA EP.getParent (some [ref]) (some []) s)).1 := by
  rw [IDXGIObject_Wrapper_GetParent]
  simp only [IncrementCallScope, preStateA]
  rw [if_pos h]

theorem GetParent_outv (thisId : Nat) (rb : RealBehavior) (ref : ObjRef) (s : CaptureState)
    (h : s.callScope + 1 = 1) :
    (IDXGIObject_Wrapper_GetParent thisId rb ref s).2.1 =
      (wPair rb (preStateA EP.getParent (some [ref]) (some []) s)).1 := by
  rw [IDXGIObject_Wrapper_GetParent]
  simp only [IncrementCallScope, preStateA, wPair]
  rw [if_pos h]

theorem GetParent_state_outer (thisId : Nat) (rb : RealBehavior) (ref : ObjRef)
    (s : CaptureState) (h : s.callScope + 1 = 1) :
    (IDXGIObject_Wrapper_GetParent thisId rb ref s).2.2 =
      finishCall EP.getParent thisId
        (runRB rb (preStateA EP.getParent (some [ref]) (some []) s)).1
        (some [(wPair rb (preStateA EP.getParent (some [ref]) (some []) s)).1]) 0
        (wPair rb (preStateA EP.getParent (some [ref]) (some []) s)).2 := by
  rw [IDXGIObject_Wrapper_GetParent]
  simp only [IncrementCallScope, preStateA, wPair, finishCall]
  rw [if_pos h]

/-- Full characterization of an outermost `GetParent` call. -/
theorem GetParent_outermost (thisId : Nat) (rb : RealBehavior) (ref : ObjRef)
    (s : CaptureState) (h : s.callScope = 0) :
    (IDXGIObject_Wrapper_GetParent thisId rb ref s).1 = rbStatus rb ∧
    (IDXGIObject_Wrapper_GetParent thisId rb ref s).2.1 = outWrapped rb ∧
    (IDXGIObject_Wrapper_GetParent thisId rb ref s).2.2.callScope = 0 ∧
    (IDXGIObject_Wrapper_GetParent thisId rb ref s).2.2.captureEnabled = s.captureEnabled ∧
    (IDXGIObject_Wrapper_GetParent thisId rb ref s).2.2.scratchAllocs = s.scratchAllocs ∧
    (IDXGIObject_Wrapper_GetParent thisId rb ref s).2.2.objectMap =
      (if SUCCEEDED (rbStatus rb) = true then (wrapMap (rbOut rb) s.objectMap s.nextId).1
       else s.objectMap) ∧
    (IDXGIObject_Wrapper_GetParent thisId rb ref s).2.2.nextId =
      (if SUCCEEDED (rbStatus rb) = true then (wrapMap (rbOut rb) s.objectMap s.nextId).2
       else s.nextId) ∧
    (IDXGIObject_Wrapper_GetParent thisId rb ref s).2.2.trace =
      s.trace ++ (if s.captureEnabled = true
        then [⟨EP.getParent, thisId, rbStatus rb, some [outWrapped rb], 0⟩] else []) ∧
    ∃ mid : List Event,
      (IDXGIObject_Wrapper_GetParent thisId rb ref s).2.2.events =
        s.events ++ Event.scopeEnter 1 :: Event.preHook EP.getParent (some [ref]) 0 ::
          Event.realCall EP.getParent (some []) 0 ::
          (mid ++ (if SUCCEEDED (rbStatus rb) = true
                   then wrapEvents (rbOut rb) s.objectMap s.nextId else []) ++
           [Event.encodeEvt ⟨EP.getParent, thisId, rbStatus rb, some [outWrapped rb], 0⟩,
            Event.postHook EP.getParent (some [outWrapped rb]) 0,
            Event.scopeExit 0]) ∧
      (mid.all fun e => !(isIntercept e)) = true ∧
      mid.countP (fun e => isEnter e) = mid.countP (fun e => isExit e) ∧
      mid.all (scopeOK 1) = true := by
  have hc : s.callScope + 1 = 1 := by omega
  rw [GetParent_res thisId rb ref s hc, GetParent_outv thisId rb ref s hc,
      GetParent_state_outer thisId rb ref s hc]
  simp only [runRB_fst, wPair_fst]
  obtain ⟨⟨cv, mv, nv, ev, av, tv⟩, mid, hev, hni, hbal, hok⟩ :=
    nestedInvAll rb (preStateA EP.getParent (some [ref]) (some []) s)
      (by simp [preStateA, noteRealCall, PreCallDispatch, IncrementCallScope]; omega)
  obtain ⟨p1, p2, p3, p4, p5, p6, p7⟩ :=
    preStateA_comps EP.getParent (some [ref]) (some []) s
  rw [p1] at cv hok
  rw [p2] at mv
  rw [p3] at nv
  rw [p4] at ev
  rw [p5] at av
  rw [p6] at tv
  rw [p7] at hev
  obtain ⟨w1, w2, w3, w4, w5, w6, w7⟩ :=
    wPair_comps rb (preStateA EP.getParent (some [ref]) (some []) s)
  obtain ⟨f1, f2, f3, f4, f5, f6, f7⟩ :=
    finishCall_comps EP.getParent thisId (rbStatus rb) (some [outWrapped rb]) 0
      (wPair rb (preStateA EP.getParent (some [ref]) (some []) s)).2
  refine ⟨trivial, trivial, ?_, ?_, ?_, ?_, ?_, ?_, mid, ?_, hni, hbal, ?_⟩
  · rw [f1, w1, cv]; omega
  · rw [f4, w4, ev]
  · rw [f5, w5, av]
  · rw [f2, w2, mv, nv]
  · rw [f3, w3, mv, nv]
  · rw [f6, w6, w4, tv, ev]
  · rw [f7, w7, w1, cv, hev, mv, nv]
    simp [h, List.append_assoc]
  · simpa [h] using hok

theorem D3D12CreateDevice_res (rb : RealBehavior) (pAdapter ppDevice : ObjRef)
    (s : CaptureState) (h : s.callScope + 1 = 1) :
    (D3D12CreateDevice rb pAdapter ppDevice s).1 =
      (runRB rb (preStateA EP.d3d12CreateDevice (some [pAdapter, ppDevice])
        (some [GetWrappedObject pAdapter]) s)).1 := by
  rw [D3D12CreateDevice]
  simp only [IncrementCallScope, preStateA]
  rw [if_pos h]

theorem D3D12CreateDevice_outv (rb : RealBehavior) (pAdapter ppDevice : ObjRef)
    (s : CaptureState) (h : s.callScope + 1 = 1) :
    (D3D12CreateDevice rb pAdapter ppDevice s).2.1 =
      (wPair rb (preStateA EP.d3d12CreateDevice (some [pAdapter, ppDevice])
        (some [GetWrappedObject pAdapter]) s)).1 := by
  rw [D3D12CreateDevice]
  simp only [IncrementCallScope, preStateA, wPair]
  rw [if_pos h]

theorem D3D12CreateDevice_state_outer (rb : RealBehavior) (pAdapter ppDevice : ObjRef)
    (s : CaptureState) (h : s.callScope + 1 = 1) :
    (D3D12CreateDevice rb pAdapter ppDevice s).2.2 =
      finishCall EP.d3d12CreateDevice 0
        (runRB rb (preStateA EP.d3d12CreateDevice (some [pAdapter, ppDevice])
          (some [GetWrappedObject pAdapter]) s)).1
        (some [pAdapter, (wPair rb (preStateA EP.d3d12CreateDevice (some [pAdapter, ppDevice])
          (some [GetWrappedObject pAdapter]) s)).1]) 0
        (wPair rb (preStateA EP.d3d12CreateDevice (some [pAdapter, ppDevice])
          (some [GetWrappedObject pAdapter]) s)).2 := by
  rw [D3D12CreateDevice]
  simp only [IncrementCallScope, preStateA, wPair, finishCall]
  rw [if_pos h]

/-- Full characterization of an outermost `D3D12CreateDevice` call. -/
theorem D3D12CreateDevice_outermost (rb : RealBehavior) (pAdapter ppDevice : ObjRef)
    (s : CaptureState) (h : s.callScope = 0) :
    (D3D12CreateDevice rb pAdapter ppDevice s).1 = rbStatus rb ∧
    (D3D12CreateDevice rb pAdapter ppDevice s).2.1 = outWrapped rb ∧
    (D3D12CreateDevice rb pAdapter ppDevice s).2.2.callScope = 0 ∧
    (D3D12CreateDevice rb pAdapter ppDevice s).2.2.captureEnabled = s.captureEnabled ∧
    (D3D12CreateDevice rb pAdapter ppDevice s).2.2.scratchAllocs = s.scratchAllocs ∧
    (D3D12CreateDevice rb pAdapter ppDevice s).2.2.objectMap =
      (if SUCCEEDED (rbStatus rb) = true then (wrapMap (rbOut rb) s.objectMap s.nextId).1
       else s.objectMap) ∧
    (D3D12CreateDevice rb pAdapter ppDevice s).2.2.nextId =
      (if SUCCEEDED (rbStatus rb) = true then (wrapMap (rbOut rb) s.objectMap s.nextId).2
       else s.nextId) ∧
    (D3D12CreateDevice rb pAdapter ppDevice s).2.2.trace =
      s.trace ++ (if s.captureEnabled = true
        then [⟨EP.d3d12CreateDevice, 0, rbStatus rb, some [pAdapter, outWrapped rb], 0⟩]
        else []) ∧
    ∃ mid : List Event,
      (D3D12CreateDevice rb pAdapter ppDevice s).2.2.events =
        s.events ++ Event.scopeEnter 1 ::
          Event.preHook EP.d3d12CreateDevice (some [pAdapter, ppDevice]) 0 ::
          Event.realCall EP.d3d12CreateDevice (some [GetWrappedObject pAdapter]) 0 ::
          (mid ++ (if SUCCEEDED (rbStatus rb) = true
                   then wrapEvents (rbOut rb) s.objectMap s.nextId else []) ++
           [Event.encodeEvt ⟨EP.d3d12CreateDevice, 0, rbStatus rb,
              some [pAdapter, outWrapped rb], 0⟩,
            Event.postHook EP.d3d12CreateDevice (some [pAdapter, outWrapped rb]) 0,
            Event.scopeExit 0]) ∧
      (mid.all fun e => !(isIntercept e)) = true ∧
      mid.countP (fun e => isEnter e) = mid.countP (fun e => isExit e) ∧
      mid.all (scopeOK 1) = true := by
  have hc : s.callScope + 1 = 1 := by omega
  rw [D3D12CreateDevice_res rb pAdapter ppDevice s hc,
      D3D12CreateDevice_outv rb pAdapter ppDevice s hc,
      D3D12CreateDevice_state_outer rb pAdapter ppDevice s hc]
  simp only [runRB_fst, wPair_fst]
  obtain ⟨⟨cv, mv, nv, ev, av, tv⟩, mid, hev, hni, hbal, hok⟩ :=
    nestedInvAll rb (preStateA EP.d3d12CreateDevice (some [pAdapter, ppDevice])
      (some [GetWrappedObject pAdapter]) s)
      (by simp [preStateA, noteRealCall, PreCallDispatch, IncrementCallScope]; omega)
  obtain ⟨p1, p2, p3, p4, p5, p6, p7⟩ :=
    preStateA_comps EP.d3d12CreateDevice (some [pAdapter, ppDevice])
      (some [GetWrappedObject pAdapter]) s
  rw [p1] at cv hok
  rw [p2] at mv
  rw [p3] at nv
  rw [p4] at ev
  rw [p5] at av
  rw [p6] at tv
  rw [p7] at hev
  obtain ⟨w1, w2, w3, w4, w5, w6, w7⟩ :=
    wPair_comps rb (preStateA EP.d3d12CreateDevice (some [pAdapter, ppDevice])
      (some [GetWrappedObject pAdapter]) s)
  obtain ⟨f1, f2, f3, f4, f5, f6, f7⟩ :=
    finishCall_comps EP.d3d12CreateDevice 0 (rbStatus rb)
      (some [pAdapter, outWrapped rb]) 0
      (wPair rb (preStateA EP.d3d12CreateDevice (some [pAdapter, ppDevice])
        (some [GetWrappedObject pAdapter]) s)).2
  refine ⟨trivial, trivial, ?_, ?_, ?_, ?_, ?_, ?_, mid, ?_, hni, hbal, ?_⟩
  · rw [f1, w1, cv]; omega
  · rw [f4, w4, ev]
  · rw [f5, w5, av]
  · rw [f2, w2, mv, nv]
  · rw [f3, w3, mv, nv]
  · rw [f6, w6, w4, tv, ev]
  · rw [f7, w7, w1, cv, hev, mv, nv]
    simp [h, List.append_assoc]
  · simpa [h] using hok

theorem QueryResourceResidency_res (thisId : Nat) (rb : RealBehavior)
    (ppResources : Option (List ObjRef)) (NumResources : Nat) (s : CaptureState)
    (h : s.callScope + 1 = 1) :
    (IDXGIDevice_Wrapper_QueryResourceResidency thisId rb ppResources NumResources s).1 =
      (runRB rb (preStateU EP.queryResourceResidency ppResources NumResources s)).1 := by
  rw [IDXGIDevice_Wrapper_QueryResourceResidency]
  simp only [IncrementCallScope, preStateU]
  rw [if_pos h]

theorem QueryResourceResidency_state_outer (thisId : Nat) (rb : RealBehavior)
    (ppResources : Option (List ObjRef)) (NumResources : Nat) (s : CaptureState)
    (h : s.callScope + 1 = 1) :
    (IDXGIDevice_Wrapper_QueryResourceResidency thisId rb ppResources NumResources s).2 =
      finishCall EP.queryResourceResidency thisId
        (runRB rb (preStateU EP.queryResourceResidency ppResources NumResources s)).1
        ppResources NumResources
        (runRB rb (preStateU EP.queryResourceResidency ppResources NumResources s)).2.2 := by
  rw [IDXGIDevice_Wrapper_QueryResourceResidency]
  simp only [IncrementCallScope, preStateU, finishCall]
  rw [if_pos h]

/-- Full characterization of an outermost `QueryResourceResidency` call. -/
theorem QueryResourceResidency_outermost (thisId : Nat) (rb : RealBehavior)
    (ppResources : Option (List ObjRef)) (NumResources : Nat) (s : CaptureState)
    (h : s.callScope = 0) :
    (IDXGIDevice_Wrapper_QueryResourceResidency thisId rb ppResources NumResources s).1 =
      rbStatus rb ∧
    (IDXGIDevice_Wrapper_QueryResourceResidency thisId rb ppResources
      NumResources s).2.callScope = 0 ∧
    (IDXGIDevice_Wrapper_QueryResourceResidency thisId rb ppResources
      NumResources s).2.captureEnabled = s.captureEnabled ∧
    (IDXGIDevice_Wrapper_QueryResourceResidency thisId rb ppResources
      NumResources s).2.scratchAllocs = s.scratchAllocs + scratchDelta ppResources NumResources ∧
    (IDXGIDevice_Wrapper_QueryResourceResidency thisId rb ppResources
      NumResources s).2.objectMap = s.objectMap ∧
    (IDXGIDevice_Wrapper_QueryResourceResidency thisId rb ppResources
      NumResources s).2.nextId = s.nextId ∧
    (IDXGIDevice_Wrapper_QueryResourceResidency thisId rb ppResources
      NumResources s).2.trace =
      s.trace ++ (if s.captureEnabled = true
        then [⟨EP.queryResourceResidency, thisId, rbStatus rb, ppResources, NumResources⟩]
        else []) ∧
    ∃ mid : List Event,
      (IDXGIDevice_Wrapper_QueryResourceResidency thisId rb ppResources
        NumResources s).2.events =
        s.events ++ Event.scopeEnter 1 ::
          Event.preHook EP.queryResourceResidency ppResources NumResources ::
          ((if scratchDelta ppResources NumResources = 0 then [] else [Event.scratchUse]) ++
           Event.realCall EP.queryResourceResidency (unwrapArr ppResources NumResources)
             NumResources ::
           (mid ++
            [Event.encodeEvt ⟨EP.queryResourceResidency, thisId, rbStatus rb, ppResources,
               NumResources⟩,
             Event.postHook EP.queryResourceResidency ppResources NumResources,
             Event.scopeExit 0])) ∧
      (mid.all fun e => !(isIntercept e)) = true ∧
      mid.countP (fun e => isEnter e) = mid.countP (fun e => isExit e) ∧
      mid.all (scopeOK 1) = true := by
  have hc : s.callScope + 1 = 1 := by omega
  rw [QueryResourceResidency_res thisId rb ppResources NumResources s hc,
      QueryResourceResidency_state_outer thisId rb ppResources NumResources s hc]
  simp only [runRB_fst]
  obtain ⟨⟨cv, mv, nv, ev, av, tv⟩, mid, hev, hni, hbal, hok⟩ :=
    nestedInvAll rb (preStateU EP.queryResourceResidency ppResources NumResources s)
      (by simp [preStateU, noteRealCall, PreCallDispatch, IncrementCallScope,
                UnwrapObjects_eq]; omega)
  obtain ⟨p1, p2, p3, p4, p5, p6, p7⟩ :=
    preStateU_comps EP.queryResourceResidency ppResources NumResources s
  rw [p1] at cv hok
  rw [p2] at mv
  rw [p3] at nv
  rw [p4] at ev
  rw [p5] at av
  rw [p6] at tv
  rw [p7] at hev
  obtain ⟨f1, f2, f3, f4, f5, f6, f7⟩ :=
    finishCall_comps EP.queryResourceResidency thisId (rbStatus rb) ppResources NumResources
      (runRB rb (preStateU EP.queryResourceResidency ppResources NumResources s)).2.2
  refine ⟨trivial, ?_, ?_, ?_, ?_, ?_, ?_, mid, ?_, hni, hbal, ?_⟩
  · rw [f1, cv]; omega
  · rw [f4, ev]
  · rw [f5, av]
  · rw [f2, mv]
  · rw [f3, nv]
  · rw [f6, tv, ev]
  · rw [f7, cv, hev]
    simp [h, List.append_assoc]
  · simpa [h] using hok

theorem ExecuteCommandLists_state_outer (thisId : Nat) (rb : RealBehavior)
    (NumCommandLists : Nat) (ppCommandLists : Option (List ObjRef)) (s : CaptureState)
    (h : s.callScope + 1 = 1) :
    ID3D12CommandQueue_Wrapper_ExecuteCommandLists thisId rb NumCommandLists
        ppCommandLists s =
      finishCall EP.executeCommandLists thisId 0 ppCommandLists NumCommandLists
        (runRB rb (preStateU EP.executeCommandLists ppCommandLists NumCommandLists s)).2.2 := by
  rw [ID3D12CommandQueue_Wrapper_ExecuteCommandLists]
  simp only [IncrementCallScope, preStateU, finishCall]
  rw [if_pos h]

/-- Full characterization of an outermost `ExecuteCommandLists` call. -/
theorem ExecuteCommandLists_outermost (thisId : Nat) (rb : RealBehavior)
    (NumCommandLists : Nat) (ppCommandLists : Option (List ObjRef)) (s : CaptureState)
    (h : s.callScope = 0) :
    (ID3D12CommandQueue_Wrapper_ExecuteCommandLists thisId rb NumCommandLists
      ppCommandLists s).callScope = 0 ∧
    (ID3D12CommandQueue_Wrapper_ExecuteCommandLists thisId rb NumCommandLists
      ppCommandLists s).captureEnabled = s.captureEnabled ∧
    (ID3D12CommandQueue_Wrapper_ExecuteCommandLists thisId rb NumCommandLists
      ppCommandLists s).scratchAllocs =
        s.scratchAllocs + scratchDelta ppCommandLists NumCommandLists ∧
    (ID3D12CommandQueue_Wrapper_ExecuteCommandLists thisId rb NumCommandLists
      ppCommandLists s).objectMap = s.objectMap ∧
    (ID3D12CommandQueue_Wrapper_ExecuteCommandLists thisId rb NumCommandLists
      ppCommandLists s).nextId = s.nextId ∧
    (ID3D12CommandQueue_Wrapper_ExecuteCommandLists thisId rb NumCommandLists
      ppCommandLists s).trace =
      s.trace ++ (if s.captureEnabled = true
        then [⟨EP.executeCommandLists, thisId, 0, ppCommandLists, NumCommandLists⟩]
        else []) ∧
    ∃ mid : List Event,
      (ID3D12CommandQueue_Wrapper_ExecuteCommandLists thisId rb NumCommandLists
        ppCommandLists s).events =
        s.events ++ Event.scopeEnter 1 ::
          Event.preHook EP.executeCommandLists ppCommandLists NumCommandLists ::
          ((if scratchDelta ppCommandLists NumCommandLists = 0 then []
            else [Event.scratchUse]) ++
           Event.realCall EP.executeCommandLists (unwrapArr ppCommandLists NumCommandLists)
             NumCommandLists ::
           (mid ++
            [Event.encodeEvt ⟨EP.executeCommandLists, thisId, 0, ppCommandLists,
               NumCommandLists⟩,
             Event.postHook EP.executeCommandLists ppCommandLists NumCommandLists,
             Event.scopeExit 0])) ∧
      (mid.all fun e => !(isIntercept e)) = true ∧
      mid.countP (fun e => isEnter e) = mid.countP (fun e => isExit e) ∧
      mid.all (scopeOK 1) = true := by
  have hc : s.callScope + 1 = 1 := by omega
  rw [ExecuteCommandLists_state_outer thisId rb NumCommandLists ppCommandLists s hc]
  obtain ⟨⟨cv, mv, nv, ev, av, tv⟩, mid, hev, hni, hbal, hok⟩ :=
    nestedInvAll rb (preStateU EP.executeCommandLists ppCommandLists NumCommandLists s)
      (by simp [preStateU, noteRealCall, PreCallDispatch, IncrementCallScope,
                UnwrapObjects_eq]; omega)
  obtain ⟨p1, p2, p3, p4, p5, p6, p7⟩ :=
    preStateU_comps EP.executeCommandLists ppCommandLists NumCommandLists s
  rw [p1] at cv hok
  rw [p2] at mv
  rw [p3] at nv
  rw [p4] at ev
  rw [p5] at av
  rw [p6] at tv
  rw [p7] at hev
  obtain ⟨f1, f2, f3, f4, f5, f6, f7⟩ :=
    finishCall_comps EP.executeCommandLists thisId 0 ppCommandLists NumCommandLists
      (runRB rb (preStateU EP.executeCommandLists ppCommandLists NumCommandLists s)).2.2
  refine ⟨?_, ?_, ?_, ?_, ?_, ?_, mid, ?_, hni, hbal, ?_⟩
  · rw [f1, cv]; omega
  · rw [f4, ev]
  · rw [f5, av]
  · rw [f2, mv]
  · rw [f3, nv]
  · rw [f6, tv, ev]
  · rw [f7, cv, hev]
    simp [h, List.append_assoc]
  · simpa [h] using hok

theorem CreateDXGIFactory_reentrant (rb : RealBehavior) (ref : ObjRef) (s : CaptureState)
    (h : 1 ≤ s.callScope) :
    NestedOut s (CreateDXGIFactory rb ref s).2.2 ∧
    CallEvents s (CreateDXGIFactory rb ref s).2.2 s.callScope := by
  have hne : ¬ (s.callScope + 1 = 1) := by omega
  rw [CreateDXGIFactory_else_state rb ref s hne]
  exact elseNested _ _ _ rb (nestedInvAll rb) s h

theorem SetPrivateData_reentrant (thisId : Nat) (rb : RealBehavior) (s : CaptureState)
    (h : 1 ≤ s.callScope) :
    NestedOut s (IDXGIObject_Wrapper_SetPrivateData thisId rb s).2 ∧
    CallEvents s (IDXGIObject_Wrapper_SetPrivateData thisId rb s).2 s.callScope := by
  have hne : ¬ (s.callScope + 1 = 1) := by omega
  rw [SetPrivateData_else_state thisId rb s hne]
  exact elseNested _ _ _ rb (nestedInvAll rb) s h

theorem ExecuteCommandLists_reentrant (thisId : Nat) (rb : RealBehavior)
    (NumCommandLists : Nat) (ppCommandLists : Option (List ObjRef)) (s : CaptureState)
    (h : 1 ≤ s.callScope) :
    NestedOut s (ID3D12CommandQueue_Wrapper_ExecuteCommandLists thisId rb
      NumCommandLists ppCommandLists s) ∧
    CallEvents s (ID3D12CommandQueue_Wrapper_ExecuteCommandLists thisId rb
      NumCommandLists ppCommandLists s) s.callScope := by
  have hne : ¬ (s.callScope + 1 = 1) := by omega
  rw [ExecuteCommandLists_else_state thisId rb NumCommandLists ppCommandLists s hne]
  exact elseNested _ _ _ rb (nestedInvAll rb) s h

theorem wrapMap_lookup_isSome (r : Nat) (m : List (Nat × Nat)) (nid : Nat) :
    (((wrapMap (ObjRef.real r) m nid).1).lookup r).isSome = true := by
  cases hm : m.lookup r with
  | some id => simp [wrapMap, hm]
  | none => simp [wrapMap, hm, List.lookup]

theorem wrapEvents_scope_free (c : Int) (ref : ObjRef) (m : List (Nat × Nat)) (nid : Nat) :
    (wrapEvents ref m nid).countP (fun e => isEnter e) = 0 ∧
    (wrapEvents ref m nid).countP (fun e => isExit e) = 0 ∧
    (wrapEvents ref m nid).all (scopeOK c) = true := by
  cases ref with
  | real r =>
      cases hm : m.lookup r <;> simp [wrapEvents, hm, isEnter, isExit, scopeOK]
  | null => simp [wrapEvents]
  | wrapped r => simp [wrapEvents]

/-- Scope-event structure of an outermost `CreateDXGIFactory` call. -/
theorem CreateDXGIFactory_callEvents_outer (rb : RealBehavior) (ref : ObjRef)
    (s : CaptureState) (h : s.callScope = 0) :
    CallEvents s (CreateDXGIFactory rb ref s).2.2 s.callScope := by
  obtain ⟨-, -, -, -, -, -, -, -, mid, hev, hni, hbal, hok⟩ :=
    CreateDXGIFactory_outermost rb ref s h
  obtain ⟨w1, w2, w3⟩ := wrapEvents_scope_free 0 (rbOut rb) s.objectMap s.nextId
  have midOK0 : mid.all (scopeOK 0) = true := scopeOK_mono_all (by omega) mid hok
  rw [h]
  refine ⟨Event.scopeEnter 1 :: Event.preHook EP.createDXGIFactory (some [ref]) 0 ::
      Event.realCall EP.createDXGIFactory (some []) 0 ::
      (mid ++ (if SUCCEEDED (rbStatus rb) = true
               then wrapEvents (rbOut rb) s.objectMap s.nextId else []) ++
       [Event.encodeEvt ⟨EP.createDXGIFactory, 0, rbStatus rb, some [outWrapped rb], 0⟩,
        Event.postHook EP.createDXGIFactory (some [outWrapped rb]) 0,
        Event.scopeExit 0]), hev, by norm_num, ?_, ?_, ?_⟩
  · have hsh : Event.scopeEnter 1 :: Event.preHook EP.createDXGIFactory (some [ref]) 0 ::
        Event.realCall EP.createDXGIFactory (some []) 0 ::
        (mid ++ (if SUCCEEDED (rbStatus rb) = true
                 then wrapEvents (rbOut rb) s.objectMap s.nextId else []) ++
         [Event.encodeEvt ⟨EP.createDXGIFactory, 0, rbStatus rb, some [outWrapped rb], 0⟩,
          Event.postHook EP.createDXGIFactory (some [outWrapped rb]) 0,
          Event.scopeExit 0]) =
        (Event.scopeEnter 1 :: Event.preHook EP.createDXGIFactory (some [ref]) 0 ::
         Event.realCall EP.createDXGIFactory (some []) 0 ::
         (mid ++ (if SUCCEEDED (rbStatus rb) = true
                  then wrapEvents (rbOut rb) s.objectMap s.nextId else []) ++
          [Event.encodeEvt ⟨EP.createDXGIFactory, 0, rbStatus rb, some [outWrapped rb], 0⟩,
           Event.postHook EP.createDXGIFactory (some [outWrapped rb]) 0])) ++
        [Event.scopeExit 0] := by
      simp [List.append_assoc]
    rw [hsh, List.getLast?_concat]
  · by_cases hs : SUCCEEDED (rbStatus rb) = true <;>
      simp only [hs, Bool.false_eq_true, if_true, if_false, ite_true, ite_false,
                 List.countP_cons, List.countP_append, List.countP_nil,
                 isEnter, isExit] <;>
      simp only [List.countP_cons, List.countP_append, isEnter, isExit] at hbal w1 w2 <;>
      omega
  · by_cases hs : SUCCEEDED (rbStatus rb) = true <;>
      simp [hs, List.all_append, List.all_cons, scopeOK, midOK0, w3]

/-- Scope-event structure of an outermost `ExecuteCommandLists` call. -/
theorem ExecuteCommandLists_callEvents_outer (thisId : Nat) (rb : RealBehavior)
    (NumCommandLists : Nat) (ppCommandLists : Option (List ObjRef)) (s : CaptureState)
    (h : s.callScope = 0) :
    CallEvents s (ID3D12CommandQueue_Wrapper_ExecuteCommandLists thisId rb
      NumCommandLists ppCommandLists s) s.callScope := by
  obtain ⟨-, -, -, -, -, -, mid, hev, hni, hbal, hok⟩ :=
    ExecuteCommandLists_outermost thisId rb NumCommandLists ppCommandLists s h
  have midOK0 : mid.all (scopeOK 0) = true := scopeOK_mono_all (by omega) mid hok
  rw [h]
  refine ⟨Event.scopeEnter 1 ::
      Event.preHook EP.executeCommandLists ppCommandLists NumCommandLists ::
      ((if scratchDelta ppCommandLists NumCommandLists = 0 then []
        else [Event.scratchUse]) ++
       Event.realCall EP.executeCommandLists (unwrapArr ppCommandLists NumCommandLists)
         NumCommandLists ::
       (mid ++
        [Event.encodeEvt ⟨EP.executeCommandLists, thisId, 0, ppCommandLists,
           NumCommandLists⟩,
         Event.postHook EP.executeCommandLists ppCommandLists NumCommandLists,
         Event.scopeExit 0])), hev, by norm_num, ?_, ?_, ?_⟩
  · have hsh : Event.scopeEnter 1 ::
        Event.preHook EP.executeCommandLists ppCommandLists NumCommandLists ::
        ((if scratchDelta ppCommandLists NumCommandLists = 0 then []
          else [Event.scratchUse]) ++
         Event.realCall EP.executeCommandLists (unwrapArr ppCommandLists NumCommandLists)
           NumCommandLists ::
         (mid ++
          [Event.encodeEvt ⟨EP.executeCommandLists, thisId, 0, ppCommandLists,
             NumCommandLists⟩,
           Event.postHook EP.executeCommandLists ppCommandLists NumCommandLists,
           Event.scopeExit 0])) =
        (Event.scopeEnter 1 ::
         Event.preHook EP.executeCommandLists ppCommandLists NumCommandLists ::
         ((if scratchDelta ppCommandLists NumCommandLists = 0 then []
           else [Event.scratchUse]) ++
          Event.realCall EP.executeCommandLists (unwrapArr ppCommandLists NumCommandLists)
            NumCommandLists ::
          (mid ++
           [Event.encodeEvt ⟨EP.executeCommandLists, thisId, 0, ppCommandLists,
              NumCommandLists⟩,
            Event.postHook EP.executeCommandLists ppCommandLists NumCommandLists]))) ++
        [Event.scopeExit 0] := by
      simp [List.append_assoc]
    rw [hsh, List.getLast?_concat]
  · by_cases hd : scratchDelta ppCommandLists NumCommandLists = 0 <;>
      simp only [hd, Bool.false_eq_true, if_true, if_false, ite_true, ite_false,
                 List.countP_cons, List.countP_append, List.countP_nil,
                 isEnter, isExit] <;>
      simp only [List.countP_cons, List.countP_append, isEnter, isExit] at hbal <;>
      omega
  · by_cases hd : scratchDelta ppCommandLists NumCommandLists = 0 <;>
      simp [hd, List.all_append, List.all_cons, scopeOK, midOK0]

/-- C4: on both the outermost and the reentrant path, the status handed back
to the application is exactly the value the forwarded real call produced;
the capture layer never substitutes a status of its own. -/
theorem C4_status_passthrough :
    (∀ (rb : RealBehavior) (ref : ObjRef) (s : CaptureState),
       (CreateDXGIFactory rb ref s).1 = rbStatus rb) ∧
    (∀ (thisId : Nat) (rb : RealBehavior) (pp : Option (List ObjRef)) (n : Nat)
       (s : CaptureState),
       (IDXGIDevice_Wrapper_QueryResourceResidency thisId rb pp n s).1 = rbStatus rb) := by
  constructor
  · intro rb ref s
    rw [CreateDXGIFactory]
    simp only [IncrementCallScope]
    split <;> simp [runRB_fst]
  · intro thisId rb pp n s
    rw [IDXGIDevice_Wrapper_QueryResourceResidency]
    simp only [IncrementCallScope]
    split <;> simp [runRB_fst]

/-- C7: unwrapping a wrapped reference yields the original real reference
(`UnwrapOne` after `Wrap` is the identity on real references), so the real
API always receives the reference the driver originally produced, as at the
`D3D12CreateDevice` forwarding site. -/
theorem C7_roundtrip :
    (∀ (r : Nat) (s : CaptureState),
       GetWrappedObject (WrapObject (ObjRef.real r) s).1 = ObjRef.real r) ∧
    (∀ (a : Nat) (rb : RealBehavior) (ppD : ObjRef) (s : CaptureState), s.callScope = 0 →
       Event.realCall EP.d3d12CreateDevice (some [ObjRef.real a]) 0 ∈
         (D3D12CreateDevice rb (ObjRef.wrapped a) ppD s).2.2.events) := by
  constructor
  · intro r s
    simp [WrapObject_eq, wrapRef, GetWrappedObject]
  · intro a rb ppD s h
    obtain ⟨-, -, -, -, -, -, -, -, mid, hev, -, -, -⟩ :=
      D3D12CreateDevice_outermost rb (ObjRef.wrapped a) ppD s h
    rw [hev]
    simp [GetWrappedObject]

/-- C8: unwrapping a null array or an array with zero stated count is a
no-op returning null — no scratch memory is allocated, the pointer is never
dereferenced, and the null/zero values are forwarded to the real call. -/
theorem C8_null_zero_arrays :
    (∀ (n : Nat) (s : CaptureState), UnwrapObjects none n s = (none, s)) ∧
    (∀ (refs : List ObjRef) (s : CaptureState),
       UnwrapObjects (some refs) 0 s = (none, s)) ∧
    (∀ (thisId : Nat) (rb : RealBehavior) (refs : List ObjRef) (s : CaptureState),
       s.callScope = 0 →
       (IDXGIDevice_Wrapper_QueryResourceResidency thisId rb (some refs) 0 s).2.scratchAllocs
         = s.scratchAllocs ∧
       Event.realCall EP.queryResourceResidency none 0 ∈
         (IDXGIDevice_Wrapper_QueryResourceResidency thisId rb (some refs) 0 s).2.events) ∧
    (∀ (thisId : Nat) (rb : RealBehavior) (n : Nat) (s : CaptureState), s.callScope = 0 →
       (IDXGIDevice_Wrapper_QueryResourceResidency thisId rb none n s).2.scratchAllocs
         = s.scratchAllocs ∧
       Event.realCall EP.queryResourceResidency none n ∈
         (IDXGIDevice_Wrapper_QueryResourceResidency thisId rb none n s).2.events) := by
  refine ⟨?_, ?_, ?_, ?_⟩
  · intro n s; simp [UnwrapObjects]
  · intro refs s; simp [UnwrapObjects]
  · intro thisId rb refs s h
    obtain ⟨-, -, -, ha, -, -, -, mid, hev, -, -, -⟩ :=
      QueryResourceResidency_outermost thisId rb (some refs) 0 s h
    constructor
    · rw [ha]; simp [scratchDelta]
    · rw [hev]; simp [scratchDelta, unwrapArr]
  · intro thisId rb n s h
    obtain ⟨-, -, -, ha, -, -, -, mid, hev, -, -, -⟩ :=
      QueryResourceResidency_outermost thisId rb none n s h
    constructor
    · rw [ha]; simp [scratchDelta]
    · rw [hev]; simp [scratchDelta, unwrapArr]

theorem noIntercept_no_wrap (mid : List Event)
    (h : (mid.all fun e => !(isIntercept e)) = true) :
    mid.countP (fun e => isWrapEvent e) = 0 := by
  rw [List.countP_eq_zero]
  intro e he
  have := List.all_eq_true.1 h e he
  cases e <;> simp_all [isWrapEvent, isIntercept]

/-- C2: when the forwarded real call fails, no wrapper is created and no
capture id or object-map entry is registered (`WrapObject` is skipped), but
the call is still encoded with the failure status when capture is enabled. -/
theorem C2_failure_transparency :
    (∀ (rb : RealBehavior) (pA pD : ObjRef) (s : CaptureState),
       s.callScope = 0 → SUCCEEDED (rbStatus rb) = false →
       (D3D12CreateDevice rb pA pD s).2.2.objectMap = s.objectMap ∧
       (D3D12CreateDevice rb pA pD s).2.2.nextId = s.nextId ∧
       (∃ new, (D3D12CreateDevice rb pA pD s).2.2.events = s.events ++ new ∧
          new.countP (fun e => isWrapEvent e) = 0) ∧
       (s.captureEnabled = true →
          (D3D12CreateDevice rb pA pD s).2.2.trace =
            s.trace ++ [⟨EP.d3d12CreateDevice, 0, rbStatus rb, some [pA, rbOut rb], 0⟩])) ∧
    (∀ (thisId : Nat) (rb : RealBehavior) (ref : ObjRef) (s : CaptureState),
       s.callScope = 0 → SUCCEEDED (rbStatus rb) = false →
       (IDXGIObject_Wrapper_GetParent thisId rb ref s).2.2.objectMap = s.objectMap ∧
       (IDXGIObject_Wrapper_GetParent thisId rb ref s).2.2.nextId = s.nextId ∧
       (∃ new, (IDXGIObject_Wrapper_GetParent thisId rb ref s).2.2.events = s.events ++ new ∧
          new.countP (fun e => isWrapEvent e) = 0) ∧
       (s.captureEnabled = true →
          (IDXGIObject_Wrapper_GetParent thisId rb ref s).2.2.trace =
            s.trace ++ [⟨EP.getParent, thisId, rbStatus rb, some [rbOut rb], 0⟩])) := by
  constructor
  · intro rb pA pD s h hs
    obtain ⟨-, -, -, -, -, hmap, hnid, htr, mid, hev, hni, -, -⟩ :=
      D3D12CreateDevice_outermost rb pA pD s h
    refine ⟨?_, ?_, ?_, ?_⟩
    · rw [hmap]; simp [hs]
    · rw [hnid]; simp [hs]
    · refine ⟨_, hev, ?_⟩
      have hmid := noIntercept_no_wrap mid hni
      simp only [List.countP_cons, List.countP_append, List.countP_nil, hs,
                 Bool.false_eq_true, if_false, ite_false, hmid]
      simp [isWrapEvent]
    · intro hce
      rw [htr]
      simp [hce, outWrapped, hs]
  · intro thisId rb ref s h hs
    obtain ⟨-, -, -, -, -, hmap, hnid, htr, mid, hev, hni, -, -⟩ :=
      GetParent_outermost thisId rb ref s h
    refine ⟨?_, ?_, ?_, ?_⟩
    · rw [hmap]; simp [hs]
    · rw [hnid]; simp [hs]
    · refine ⟨_, hev, ?_⟩
      have hmid := noIntercept_no_wrap mid hni
      simp only [List.countP_cons, List.countP_append, List.countP_nil, hs,
                 Bool.false_eq_true, if_false, ite_false, hmid]
      simp [isWrapEvent]
    · intro hce
      rw [htr]
      simp [hce, outWrapped, hs]

/-- C3: when an outermost call succeeds and produces a new object reference
— including sub-object getters such as `GetParent` and creation entry points
— the returned reference is replaced by a wrapper registered in the object
map before the call returns to the application. -/
theorem C3_wrap_on_success :
    (∀ (thisId : Nat) (rb : RealBehavior) (ref : ObjRef) (s : CaptureState) (r : Nat),
       s.callScope = 0 → SUCCEEDED (rbStatus rb) = true → rbOut rb = ObjRef.real r →
       (IDXGIObject_Wrapper_GetParent thisId rb ref s).2.1 = ObjRef.wrapped r ∧
       (((IDXGIObject_Wrapper_GetParent thisId rb ref s).2.2.objectMap).lookup r).isSome
         = true) ∧
    (∀ (rb : RealBehavior) (pA pD : ObjRef) (s : CaptureState) (r : Nat),
       s.callScope = 0 → SUCCEEDED (rbStatus rb) = true → rbOut rb = ObjRef.real r →
       (D3D12CreateDevice rb pA pD s).2.1 = ObjRef.wrapped r ∧
       (((D3D12CreateDevice rb pA pD s).2.2.objectMap).lookup r).isSome = true) := by
  constructor
  · intro thisId rb ref s r h hs hr
    obtain ⟨-, hout, -, -, -, hmap, -, -, -, -, -, -, -⟩ :=
      GetParent_outermost thisId rb ref s h
    constructor
    · rw [hout]; simp [outWrapped, hs, hr, wrapRef]
    · rw [hmap]; simp only [hs, if_true, ite_true, hr]
      exact wrapMap_lookup_isSome r s.objectMap s.nextId
  · intro rb pA pD s r h hs hr
    obtain ⟨-, hout, -, -, -, hmap, -, -, -, -, -, -, -⟩ :=
      D3D12CreateDevice_outermost rb pA pD s h
    constructor
    · rw [hout]; simp [outWrapped, hs, hr, wrapRef]
    · rw [hmap]; simp only [hs, if_true, ite_true, hr]
      exact wrapMap_lookup_isSome r s.objectMap s.nextId

/-- C1: the pre-call hook, output wrapping, call encoding and post-call hook
run only when the post-increment call-scope depth equals 1; a reentrant call
on the same thread forwards directly, appends no trace record and performs
no interception work, so a nested call sequence produces exactly one trace
record, carrying the outermost call's identifier. -/
theorem C1_reentrancy_suppression :
    (∀ (rb : RealBehavior) (ref : ObjRef) (s : CaptureState),
       s.callScope = 0 → s.captureEnabled = true →
       (CreateDXGIFactory rb ref s).2.2.trace =
         s.trace ++ [⟨EP.createDXGIFactory, 0, rbStatus rb, some [outWrapped rb], 0⟩] ∧
       Event.preHook EP.createDXGIFactory (some [ref]) 0 ∈
         (CreateDXGIFactory rb ref s).2.2.events ∧
       Event.postHook EP.createDXGIFactory (some [outWrapped rb]) 0 ∈
         (CreateDXGIFactory rb ref s).2.2.events) ∧
    (∀ (rb : RealBehavior) (ref : ObjRef) (s : CaptureState), 1 ≤ s.callScope →
       (CreateDXGIFactory rb ref s).2.2.trace = s.trace ∧
       ∃ new, (CreateDXGIFactory rb ref s).2.2.events = s.events ++ new ∧
         (new.all fun e => !(isIntercept e)) = true) ∧
    (∀ (thisId : Nat) (rb : RealBehavior) (s : CaptureState),
       s.callScope = 0 → s.captureEnabled = true →
       (IDXGIObject_Wrapper_SetPrivateData thisId rb s).2.trace =
         s.trace ++ [⟨EP.setPrivateData, thisId, rbStatus rb, some [], 0⟩] ∧
       Event.preHook EP.setPrivateData (some []) 0 ∈
         (IDXGIObject_Wrapper_SetPrivateData thisId rb s).2.events ∧
       Event.postHook EP.setPrivateData (some []) 0 ∈
         (IDXGIObject_Wrapper_SetPrivateData thisId rb s).2.events) ∧
    (∀ (thisId : Nat) (rb : RealBehavior) (s : CaptureState), 1 ≤ s.callScope →
       (IDXGIObject_Wrapper_SetPrivateData thisId rb s).2.trace = s.trace ∧
       ∃ new, (IDXGIObject_Wrapper_SetPrivateData thisId rb s).2.events = s.events ++ new ∧
         (new.all fun e => !(isIntercept e)) = true) := by
  refine ⟨?_, ?_, ?_, ?_⟩
  · intro rb ref s h hce
    obtain ⟨-, -, -, -, -, -, -, htr, mid, hev, -, -, -⟩ :=
      CreateDXGIFactory_outermost rb ref s h
    refine ⟨by rw [htr]; simp [hce], by rw [hev]; simp, by rw [hev]; simp⟩
  · intro rb ref s h
    obtain ⟨⟨-, -, -, -, -, htr⟩, new, hev, hni, -, -⟩ :=
      (CreateDXGIFactory_reentrant rb ref s h).1
    exact ⟨htr, new, hev, hni⟩
  · intro thisId rb s h hce
    obtain ⟨-, -, -, -, -, -, htr, mid, hev, -, -, -⟩ :=
      SetPrivateData_outermost thisId rb s h
    refine ⟨by rw [htr]; simp [hce], by rw [hev]; simp, by rw [hev]; simp⟩
  · intro thisId rb s h
    obtain ⟨⟨-, -, -, -, -, htr⟩, new, hev, hni, -, -⟩ :=
      (SetPrivateData_reentrant thisId rb s h).1
    exact ⟨htr, new, hev, hni⟩

/-- C5: every intercepted entry point increments the per-thread call-scope
counter exactly once on entry and decrements it exactly once before
returning, on the outermost and the reentrant path alike; the recorded
depths never drop below the starting depth (hence stay nonnegative) and the
counter returns to its pre-call value. -/
theorem C5_scope_counter_balanced :
    (∀ (rb : RealBehavior) (ref : ObjRef) (s : CaptureState), 0 ≤ s.callScope →
       (CreateDXGIFactory rb ref s).2.2.callScope = s.callScope ∧
       ∃ new, (CreateDXGIFactory rb ref s).2.2.events = s.events ++ new ∧
         new.head? = some (Event.scopeEnter (s.callScope + 1)) ∧
         new.getLast? = some (Event.scopeExit s.callScope) ∧
         new.countP (fun e => isEnter e) = new.countP (fun e => isExit e) ∧
         new.all (scopeOK s.callScope) = true ∧
         new.all (scopeOK 0) = true) ∧
    (∀ (thisId : Nat) (rb : RealBehavior) (n : Nat) (pp : Option (List ObjRef))
       (s : CaptureState), 0 ≤ s.callScope →
       (ID3D12CommandQueue_Wrapper_ExecuteCommandLists thisId rb n pp s).callScope
         = s.callScope ∧
       ∃ new, (ID3D12CommandQueue_Wrapper_ExecuteCommandLists thisId rb n pp s).events
           = s.events ++ new ∧
         new.head? = some (Event.scopeEnter (s.callScope + 1)) ∧
         new.getLast? = some (Event.scopeExit s.callScope) ∧
         new.countP (fun e => isEnter e) = new.countP (fun e => isExit e) ∧
         new.all (scopeOK s.callScope) = true ∧
         new.all (scopeOK 0) = true) := by
  constructor
  · intro rb ref s h0
    rcases eq_or_lt_of_le h0 with h | h
    · have h' : s.callScope = 0 := h.symm
      obtain ⟨-, -, hcs, -, -, -, -, -, -, -, -, -, -⟩ :=
        CreateDXGIFactory_outermost rb ref s h'
      obtain ⟨new, hev, hhd, hlast, hbal, hok⟩ :=
        CreateDXGIFactory_callEvents_outer rb ref s h'
      exact ⟨by rw [hcs, h'], new, hev, hhd, hlast, hbal, hok,
             by rw [h'] at hok; exact hok⟩
    · have h1 : 1 ≤ s.callScope := h
      obtain ⟨⟨hcs, -, -, -, -, -⟩, -⟩ := (CreateDXGIFactory_reentrant rb ref s h1).1
      obtain ⟨new, hev, hhd, hlast, hbal, hok⟩ :=
        (CreateDXGIFactory_reentrant rb ref s h1).2
      exact ⟨hcs, new, hev, hhd, hlast, hbal, hok,
             scopeOK_mono_all h0 new hok⟩
  · intro thisId rb n pp s h0
    rcases eq_or_lt_of_le h0 with h | h
    · have h' : s.callScope = 0 := h.symm
      obtain ⟨hcs, -, -, -, -, -, -, -, -, -, -⟩ :=
        ExecuteCommandLists_outermost thisId rb n pp s h'
      obtain ⟨new, hev, hhd, hlast, hbal, hok⟩ :=
        ExecuteCommandLists_callEvents_outer thisId rb n pp s h'
      exact ⟨by rw [hcs, h'], new, hev, hhd, hlast, hbal, hok,
             by rw [h'] at hok; exact hok⟩
    · have h1 : 1 ≤ s.callScope := h
      obtain ⟨⟨hcs, -, -, -, -, -⟩, -⟩ :=
        (ExecuteCommandLists_reentrant thisId rb n pp s h1).1
      obtain ⟨new, hev, hhd, hlast, hbal, hok⟩ :=
        (ExecuteCommandLists_reentrant thisId rb n pp s h1).2
      exact ⟨hcs, new, hev, hhd, hlast, hbal, hok,
             scopeOK_mono_all h0 new hok⟩

/-- C6: for an outermost call with an array of wrapped references, the real
call receives the resolved copy built in scratch memory obtained from the
handle-unwrap pool (one scratch allocation), while the encoder and the
post-call hook receive the argument array exactly as originally supplied,
still wrapped. -/
theorem C6_scratch_unwrap_original_encode :
    (∀ (thisId : Nat) (rb : RealBehavior) (n : Nat) (refs : List ObjRef)
       (s : CaptureState), s.callScope = 0 → n ≠ 0 →
       Event.realCall EP.executeCommandLists (some (List.map GetWrappedObject refs)) n ∈
         (ID3D12CommandQueue_Wrapper_ExecuteCommandLists thisId rb n (some refs) s).events ∧
       (ID3D12CommandQueue_Wrapper_ExecuteCommandLists thisId rb n (some refs) s).scratchAllocs
         = s.scratchAllocs + 1 ∧
       (s.captureEnabled = true →
         (ID3D12CommandQueue_Wrapper_ExecuteCommandLists thisId rb n (some refs) s).trace =
           s.trace ++ [⟨EP.executeCommandLists, thisId, 0, some refs, n⟩]) ∧
       Event.postHook EP.executeCommandLists (some refs) n ∈
         (ID3D12CommandQueue_Wrapper_ExecuteCommandLists thisId rb n (some refs) s).events) ∧
    (∀ (thisId : Nat) (rb : RealBehavior) (refs : List ObjRef) (n : Nat)
       (s : CaptureState), s.callScope = 0 → n ≠ 0 →
       Event.realCall EP.queryResourceResidency (some (List.map GetWrappedObject refs)) n ∈
         (IDXGIDevice_Wrapper_QueryResourceResidency thisId rb (some refs) n s).2.events ∧
       (IDXGIDevice_Wrapper_QueryResourceResidency thisId rb (some refs) n s).2.scratchAllocs
         = s.scratchAllocs + 1 ∧
       (s.captureEnabled = true →
         (IDXGIDevice_Wrapper_QueryResourceResidency thisId rb (some refs) n s).2.trace =
           s.trace ++ [⟨EP.queryResourceResidency, thisId, rbStatus rb, some refs, n⟩]) ∧
       Event.postHook EP.queryResourceResidency (some refs) n ∈
         (IDXGIDevice_Wrapper_QueryResourceResidency thisId rb (some refs) n s).2.events) := by
  constructor
  · intro thisId rb n refs s h hn
    obtain ⟨-, -, ha, -, -, htr, mid, hev, -, -, -⟩ :=
      ExecuteCommandLists_outermost thisId rb n (some refs) s h
    refine ⟨?_, ?_, ?_, ?_⟩
    · rw [hev]; simp [unwrapArr, hn]
    · rw [ha]; simp [scratchDelta, hn]
    · intro hce; rw [htr]; simp [hce]
    · rw [hev]; simp
  · intro thisId rb refs n s h hn
    obtain ⟨-, -, -, ha, -, -, htr, mid, hev, -, -, -⟩ :=
      QueryResourceResidency_outermost thisId rb (some refs) n s h
    refine ⟨?_, ?_, ?_, ?_⟩
    · rw [hev]; simp [unwrapArr, hn]
    · rw [ha]; simp [scratchDelta, hn]
    · intro hce; rw [htr]; simp [hce]
    · rw [hev]; simp

/-- Witness for C1: a successful outermost create call at a concrete state. -/
theorem C1_witness :
    ((⟨0, [], 1, true, 0, [], []⟩ : CaptureState).callScope = 0 ∧
     (⟨0, [], 1, true, 0, [], []⟩ : CaptureState).captureEnabled = true) ∧
    ((CreateDXGIFactory (RealBehavior.ret 0 (ObjRef.real 5)) ObjRef.null
        ⟨0, [], 1, true, 0, [], []⟩).2.2.trace =
       (⟨0, [], 1, true, 0, [], []⟩ : CaptureState).trace ++
         [⟨EP.createDXGIFactory, 0, rbStatus (RealBehavior.ret 0 (ObjRef.real 5)),
           some [outWrapped (RealBehavior.ret 0 (ObjRef.real 5))], 0⟩] ∧
     Event.preHook EP.createDXGIFactory (some [ObjRef.null]) 0 ∈
       (CreateDXGIFactory (RealBehavior.ret 0 (ObjRef.real 5)) ObjRef.null
         ⟨0, [], 1, true, 0, [], []⟩).2.2.events ∧
     Event.postHook EP.createDXGIFactory
         (some [outWrapped (RealBehavior.ret 0 (ObjRef.real 5))]) 0 ∈
       (CreateDXGIFactory (RealBehavior.ret 0 (ObjRef.real 5)) ObjRef.null
         ⟨0, [], 1, true, 0, [], []⟩).2.2.events) :=
  ⟨⟨rfl, rfl⟩,
   C1_reentrancy_suppression.1 (RealBehavior.ret 0 (ObjRef.real 5)) ObjRef.null
     ⟨0, [], 1, true, 0, [], []⟩ rfl rfl⟩

/-- Witness for C2: a failing real call at a concrete state. -/
theorem C2_witness :
    ((⟨0, [], 1, true, 0, [], []⟩ : CaptureState).callScope = 0 ∧
     SUCCEEDED (rbStatus (RealBehavior.ret (-1) ObjRef.null)) = false) ∧
    ((D3D12CreateDevice (RealBehavior.ret (-1) ObjRef.null) ObjRef.null ObjRef.null
        ⟨0, [], 1, true, 0, [], []⟩).2.2.objectMap =
       (⟨0, [], 1, true, 0, [], []⟩ : CaptureState).objectMap ∧
     (D3D12CreateDevice (RealBehavior.ret (-1) ObjRef.null) ObjRef.null ObjRef.null
        ⟨0, [], 1, true, 0, [], []⟩).2.2.nextId =
       (⟨0, [], 1, true, 0, [], []⟩ : CaptureState).nextId ∧
     (∃ new, (D3D12CreateDevice (RealBehavior.ret (-1) ObjRef.null) ObjRef.null ObjRef.null
          ⟨0, [], 1, true, 0, [], []⟩).2.2.events =
            (⟨0, [], 1, true, 0, [], []⟩ : CaptureState).events ++ new ∧
        new.countP (fun e => isWrapEvent e) = 0) ∧
     ((⟨0, [], 1, true, 0, [], []⟩ : CaptureState).captureEnabled = true →
        (D3D12CreateDevice (RealBehavior.ret (-1) ObjRef.null) ObjRef.null ObjRef.null
           ⟨0, [], 1, true, 0, [], []⟩).2.2.trace =
          (⟨0, [], 1, true, 0, [], []⟩ : CaptureState).trace ++
            [⟨EP.d3d12CreateDevice, 0, rbStatus (RealBehavior.ret (-1) ObjRef.null),
              some [ObjRef.null, rbOut (RealBehavior.ret (-1) ObjRef.null)], 0⟩])) :=
  ⟨⟨rfl, by decide⟩,
   C2_failure_transparency.1 (RealBehavior.ret (-1) ObjRef.null) ObjRef.null ObjRef.null
     ⟨0, [], 1, true, 0, [], []⟩ rfl (by decide)⟩

/-- Witness for C3: a successful sub-object getter at a concrete state. -/
theorem C3_witness :
    ((⟨0, [], 1, true, 0, [], []⟩ : CaptureState).callScope = 0 ∧
     SUCCEEDED (rbStatus (RealBehavior.ret 0 (ObjRef.real 7))) = true ∧
     rbOut (RealBehavior.ret 0 (ObjRef.real 7)) = ObjRef.real 7) ∧
    ((IDXGIObject_Wrapper_GetParent 3 (RealBehavior.ret 0 (ObjRef.real 7)) ObjRef.null
        ⟨0, [], 1, true, 0, [], []⟩).2.1 = ObjRef.wrapped 7 ∧
     (((IDXGIObject_Wrapper_GetParent 3 (RealBehavior.ret 0 (ObjRef.real 7)) ObjRef.null
         ⟨0, [], 1, true, 0, [], []⟩).2.2.objectMap).lookup 7).isSome = true) :=
  ⟨⟨rfl, by decide, rfl⟩,
   C3_wrap_on_success.1 3 (RealBehavior.ret 0 (ObjRef.real 7)) ObjRef.null
     ⟨0, [], 1, true, 0, [], []⟩ 7 rfl (by decide) rfl⟩

/-- Witness for C5: scope balance of a concrete nested call sequence. -/
theorem C5_witness :
    (0 ≤ (⟨0, [], 1, true, 0, [], []⟩ : CaptureState).callScope) ∧
    ((CreateDXGIFactory (RealBehavior.callback EP.setPrivateData
        (RealBehavior.ret 0 ObjRef.null) (RealBehavior.ret 0 (ObjRef.real 5))) ObjRef.null
        ⟨0, [], 1, true, 0, [], []⟩).2.2.callScope =
       (⟨0, [], 1, true, 0, [], []⟩ : CaptureState).callScope ∧
     ∃ new, (CreateDXGIFactory (RealBehavior.callback EP.setPrivateData
         (RealBehavior.ret 0 ObjRef.null) (RealBehavior.ret 0 (ObjRef.real 5))) ObjRef.null
         ⟨0, [], 1, true, 0, [], []⟩).2.2.events =
         (⟨0, [], 1, true, 0, [], []⟩ : CaptureState).events ++ new ∧
       new.head? = some (Event.scopeEnter
         ((⟨0, [], 1, true, 0, [], []⟩ : CaptureState).callScope + 1)) ∧
       new.getLast? = some (Event.scopeExit
         (⟨0, [], 1, true, 0, [], []⟩ : CaptureState).callScope) ∧
       new.countP (fun e => isEnter e) = new.countP (fun e => isExit e) ∧
       new.all (scopeOK (⟨0, [], 1, true, 0, [], []⟩ : CaptureState).callScope) = true ∧
       new.all (scopeOK 0) = true) :=
  ⟨by decide,
   C5_scope_counter_balanced.1 (RealBehavior.callback EP.setPrivateData
     (RealBehavior.ret 0 ObjRef.null) (RealBehavior.ret 0 (ObjRef.real 5))) ObjRef.null
     ⟨0, [], 1, true, 0, [], []⟩ (by decide)⟩

/-- Witness for C6: a concrete wrapped command-list array. -/
theorem C6_witness :
    ((⟨0, [], 1, true, 0, [], []⟩ : CaptureState).callScope = 0 ∧ (1 : Nat) ≠ 0) ∧
    (Event.realCall EP.executeCommandLists
       (some (List.map GetWrappedObject [ObjRef.wrapped 4])) 1 ∈
       (ID3D12CommandQueue_Wrapper_ExecuteCommandLists 2
         (RealBehavior.ret 0 ObjRef.null) 1 (some [ObjRef.wrapped 4])
         ⟨0, [], 1, true, 0, [], []⟩).events ∧
     (ID3D12CommandQueue_Wrapper_ExecuteCommandLists 2 (RealBehavior.ret 0 ObjRef.null) 1
        (some [ObjRef.wrapped 4]) ⟨0, [], 1, true, 0, [], []⟩).scratchAllocs =
       (⟨0, [], 1, true, 0, [], []⟩ : CaptureState).scratchAllocs + 1 ∧
     ((⟨0, [], 1, true, 0, [], []⟩ : CaptureState).captureEnabled = true →
       (ID3D12CommandQueue_Wrapper_ExecuteCommandLists 2 (RealBehavior.ret 0 ObjRef.null) 1
          (some [ObjRef.wrapped 4]) ⟨0, [], 1, true, 0, [], []⟩).trace =
         (⟨0, [], 1, true, 0, [], []⟩ : CaptureState).trace ++
           [⟨EP.executeCommandLists, 2, 0, some [ObjRef.wrapped 4], 1⟩]) ∧
     Event.postHook EP.executeCommandLists (some [ObjRef.wrapped 4]) 1 ∈
       (ID3D12CommandQueue_Wrapper_ExecuteCommandLists 2 (RealBehavior.ret 0 ObjRef.null) 1
         (some [ObjRef.wrapped 4]) ⟨0, [], 1, true, 0, [], []⟩).events) :=
  ⟨⟨rfl, by decide⟩,
   C6_scratch_unwrap_original_encode.1 2 (RealBehavior.ret 0 ObjRef.null) 1
     [ObjRef.wrapped 4] ⟨0, [], 1, true, 0, [], []⟩ rfl (by decide)⟩

/-- Witness for C7: the real API receives the adapter the driver produced. -/
theorem C7_witness :
    ((⟨0, [], 1, true, 0, [], []⟩ : CaptureState).callScope = 0) ∧
    Event.realCall EP.d3d12CreateDevice (some [ObjRef.real 2]) 0 ∈
      (D3D12CreateDevice (RealBehavior.ret 0 ObjRef.null) (ObjRef.wrapped 2) ObjRef.null
        ⟨0, [], 1, true, 0, [], []⟩).2.2.events :=
  ⟨rfl,
   C7_roundtrip.2 2 (RealBehavior.ret 0 ObjRef.null) ObjRef.null
     ⟨0, [], 1, true, 0, [], []⟩ rfl⟩

/-- Witness for C8: a non-null array with zero count at a concrete state. -/
theorem C8_witness :
    ((⟨0, [], 1, true, 0, [], []⟩ : CaptureState).callScope = 0) ∧
    ((IDXGIDevice_Wrapper_QueryResourceResidency 1 (RealBehavior.ret 0 ObjRef.null)
        (some [ObjRef.wrapped 9]) 0 ⟨0, [], 1, true, 0, [], []⟩).2.scratchAllocs =
       (⟨0, [], 1, true, 0, [], []⟩ : CaptureState).scratchAllocs ∧
     Event.realCall EP.queryResourceResidency none 0 ∈
       (IDXGIDevice_Wrapper_QueryResourceResidency 1 (RealBehavior.ret 0 ObjRef.null)
         (some [ObjRef.wrapped 9]) 0 ⟨0, [], 1, true, 0, [], []⟩).2.events) :=
  ⟨rfl,
   C8_null_zero_arrays.2.2.1 1 (RealBehavior.ret 0 ObjRef.null) [ObjRef.wrapped 9]
     ⟨0, [], 1, true, 0, [], []⟩ rfl⟩

end Wrap

namespace Settings

theorem findIdx_length_of_no (t : List Char) (p : Char → Bool)
    (h : t.findIdx p = t.length) : t.takeWhile (fun c => !(p c)) = t := by
  induction t with
  | nil => simp
  | cons c t ih =>
      rw [List.findIdx_cons] at h
      by_cases hc : p c = true
      · simp [hc] at h
      · simp only [hc, cond_false, List.length_cons, Nat.add_right_cancel_iff] at h
        simp [List.takeWhile_cons, hc, ih h]

theorem take_findIdx_takeWhile (t : List Char) (p : Char → Bool) :
    t.take (t.findIdx p) = t.takeWhile (fun c => !(p c)) := by
  induction t with
  | nil => simp
  | cons c t ih =>
      rw [List.findIdx_cons]
      by_cases hc : p c = true
      · simp [hc, List.takeWhile_cons]
      · simp [hc, List.takeWhile_cons, List.take_succ_cons, ih]

/-- Stripping at `find_first_of('#')` discards exactly the text from the
first comment delimiter onward. -/
theorem stripComment_takeWhile (l : List Char) :
    stripComment l = l.takeWhile (fun c => !(c == kCommentDelimiter)) := by
  simp only [stripComment]
  by_cases h : l.findIdx (fun c => c == kCommentDelimiter) = l.length
  · simp only [h, ne_eq, not_true_eq_false, if_false, ite_false]
    exact (findIdx_length_of_no l _ h).symm
  · simp only [ne_eq, h, not_false_eq_true, if_true, ite_true]
    exact take_findIdx_takeWhile l _

theorem scanSet_length_le (p : Char → Bool) : ∀ (n : Nat) (l : List Char),
    ((scanSet p n l).1).length ≤ n := by
  intro n l
  induction l generalizing n with
  | nil => cases n <;> simp [scanSet]
  | cons c t ih =>
      cases n with
      | zero => simp [scanSet]
      | succ m =>
          by_cases hc : p c = true
          · simp only [scanSet, hc, if_true, ite_true]
            simpa using Nat.succ_le_succ (ih m)
          · simp [scanSet, hc]

/-- A successful `sscanf` match yields tokens within the conversion bounds,
and both tokens are non-empty. -/
theorem sscanfKeyValue_bounds (l k v : List Char)
    (h : sscanfKeyValue l = some (k, v)) :
    k.length ≤ 511 ∧ v.length ≤ 511 ∧ k ≠ [] ∧ v ≠ [] := by
  simp only [sscanfKeyValue] at h
  split at h
  · exact absurd h (by simp)
  · rename_i hkey
    split at h
    · rename_i r4 heq
      split at h
      · exact absurd h (by simp)
      · rename_i hval
        simp only [Option.some.injEq, Prod.mk.injEq] at h
        obtain ⟨hk, hv⟩ := h
        subst hk; subst hv
        exact ⟨scanSet_length_le _ _ _, scanSet_length_le _ _ _, hkey, hval⟩
    · exact absurd h (by simp)

/-- On a non-empty string, `RemoveQuotes` removes exactly one leading quote
when present and one trailing quote when present, and nothing else. -/
theorem RemoveQuotes_strip (s : List Char) (h : s ≠ []) :
    RemoveQuotes s = dropTrailingQuote (dropLeadingQuote s) := by
  match s with
  | c :: rest =>
    rcases List.eq_nil_or_concat rest with hr | ⟨r2, a, ha⟩
    · subst hr
      by_cases hq1 : isQuoteChar c = true <;>
        simp [RemoveQuotes, dropLeadingQuote, dropTrailingQuote, hq1]
    · subst ha
      simp only [List.concat_eq_append] at h ⊢
      have hlq : (c :: (r2 ++ [a])).getLast? = some a := by
        rw [show c :: (r2 ++ [a]) = (c :: r2) ++ [a] from by simp]
        exact List.getLast?_concat _
      have hg : (c :: (r2 ++ [a])).getLast (List.cons_ne_nil _ _) = a := by
        have h1 := hlq
        rw [List.getLast?_eq_getLast (c :: (r2 ++ [a])) (List.cons_ne_nil _ _)] at h1
        exact Option.some.inj h1
      have hdl : (c :: (r2 ++ [a])).dropLast = c :: r2 := by
        rw [show c :: (r2 ++ [a]) = (c :: r2) ++ [a] from by simp, List.dropLast_concat]
      by_cases hq1 : isQuoteChar c = true <;> by_cases hq2 : isQuoteChar a = true
      · simp [RemoveQuotes, hg, hq1, hq2, dropLeadingQuote, dropTrailingQuote,
              List.getLast?_concat, List.dropLast_concat, List.take_left, hlq, hdl]
      · simp [RemoveQuotes, hg, hq1, hq2, dropLeadingQuote, dropTrailingQuote,
              List.getLast?_concat, List.dropLast_concat, List.take_left, hlq, hdl]
      · simp [RemoveQuotes, hg, hq1, hq2, dropLeadingQuote, dropTrailingQuote,
              List.getLast?_concat, List.dropLast_concat, List.take_left, hlq, hdl]
      · simp [RemoveQuotes, hg, hq1, hq2, dropLeadingQuote, dropTrailingQuote,
              List.getLast?_concat, List.dropLast_concat, List.take_left, hlq, hdl]

/-- C9: `LoadLayerSettingsFile` called with a null settings-map pointer
returns `EINVAL` immediately, without opening the file and without touching
any state; with a non-null map it returns 0 when the file is read to
end-of-file, and returns `errno` when the file cannot be opened or a read
error occurs before end-of-file. -/
theorem C9_load_layer_settings_file_errors :
    (∀ (file : IFile) (filter : String),
       LoadLayerSettingsFile file filter none = (EINVAL, false, none)) ∧
    (∀ (file : IFile) (filter : String) (m : List (String × String)),
       file.openErr = none → file.ending = StreamEnd.eof →
       (LoadLayerSettingsFile file filter (some m)).1 = 0) ∧
    (∀ (file : IFile) (filter : String) (m : List (String × String)) (e : Nat),
       file.openErr = some e →
       LoadLayerSettingsFile file filter (some m) = (e, true, some m)) ∧
    (∀ (file : IFile) (filter : String) (m : List (String × String)) (e : Nat),
       file.openErr = none → file.ending = StreamEnd.err e →
       (LoadLayerSettingsFile file filter (some m)).1 = e) := by
  refine ⟨?_, ?_, ?_, ?_⟩
  · intro file filter
    simp [LoadLayerSettingsFile]
  · intro file filter m h1 h2
    simp [LoadLayerSettingsFile, h1, h2]
  · intro file filter m e h1
    simp [LoadLayerSettingsFile, h1]
  · intro file filter m e h1 h2
    simp [LoadLayerSettingsFile, h1, h2]

/-- Witness for C9 at a concrete file that opens and reads to end-of-file. -/
theorem C9_witness :
    ((⟨none, ["capture = 1"], StreamEnd.eof⟩ : IFile).openErr = none ∧
     (⟨none, ["capture = 1"], StreamEnd.eof⟩ : IFile).ending = StreamEnd.eof) ∧
    (LoadLayerSettingsFile ⟨none, ["capture = 1"], StreamEnd.eof⟩ "" (some [])).1 = 0 :=
  ⟨⟨rfl, rfl⟩,
   C9_load_layer_settings_file_errors.2.1 ⟨none, ["capture = 1"], StreamEnd.eof⟩ "" [] rfl rfl⟩

/-- C10: per-line processing of the settings file — text from the first
comment delimiter onward is discarded, an entry is stored only when the
remainder matches the `sscanf` format (key and value tokens capped at 511
characters, both non-empty), a non-empty filter admits only keys it is a
prefix of, and the stored value passes through `RemoveQuotes`, which expects
a non-empty input and removes at most one leading and one trailing quote. -/
theorem C10_settings_line_processing :
    (∀ l : List Char,
       stripComment l = l.takeWhile (fun c => !(c == kCommentDelimiter))) ∧
    (∀ (filter : String) (m : List (String × String)) (line : String),
       sscanfKeyValue (stripComment line.data) = none → processLine filter m line = m) ∧
    (∀ (filter : String) (m : List (String × String)) (line : String) (k v : List Char),
       sscanfKeyValue (stripComment line.data) = some (k, v) →
       filterMatches filter.data k = false → filter ≠ "" →
       processLine filter m line = m) ∧
    (∀ (filter : String) (m : List (String × String)) (line : String) (k v : List Char),
       sscanfKeyValue (stripComment line.data) = some (k, v) →
       (filter = "" ∨ filterMatches filter.data k = true) →
       processLine filter m line =
         mapInsert m (String.mk k) (String.mk (RemoveQuotes v))) ∧
    (∀ (l k v : List Char), sscanfKeyValue l = some (k, v) →
       k.length ≤ 511 ∧ v.length ≤ 511 ∧ v ≠ []) ∧
    (∀ s : List Char, s ≠ [] →
       RemoveQuotes s = dropTrailingQuote (dropLeadingQuote s)) := by
  refine ⟨stripComment_takeWhile, ?_, ?_, ?_, ?_, RemoveQuotes_strip⟩
  · intro filter m line h
    simp [processLine, h]
  · intro filter m line k v h hf hne
    have hD : filter.data ≠ [] := by
      intro hh
      apply hne
      cases filter
      simp_all
    simp [processLine, h, hf, hD]
  · intro filter m line k v h hor
    rcases hor with hf | hf
    · subst hf
      simp [processLine, h]
    · simp [processLine, h, hf]
  · intro l k v h
    obtain ⟨h1, h2, h3, h4⟩ := sscanfKeyValue_bounds l k v h
    exact ⟨h1, h2, h4⟩

/-- Witness for C10 at a concrete quoted value. -/
theorem C10_witness :
    (['"', 'a', '"'] ≠ ([] : List Char)) ∧
    RemoveQuotes ['"', 'a', '"'] = dropTrailingQuote (dropLeadingQuote ['"', 'a', '"']) :=
  ⟨by decide, C10_settings_line_processing.2.2.2.2.2 ['"', 'a', '"'] (by decide)⟩

end Settings

end GfxRecon
